import Mathlib

set_option maxHeartbeats 1600000
set_option maxRecDepth 16000

/-!
Shallow embedding of the simulation core of the two 2D Donkey-Kong-style
variants in this repository:

* namespace `DK`    — the full four-level variant (`DonkeyKong.tsx`):
  avatar physics, platform/ladder collision, barrel and fireball lifecycle,
  rivets, elevators, bonus countdown, win conditions, the death-acknowledge
  branch of the click handler, and the per-tick game loop.
* namespace `Atari` — the reduced single-screen variant (`DonkeyKongAtari`
  in `Game3D.tsx`): avatar update, hammer pickup/consumption, barrel and
  fireball updates, the collision pass, `loseLife`, and the per-tick loop.

Positions and velocities are rationals (the source uses JS numbers with
fractional constants such as 0.3 and 1.2, always exact decimal fractions);
counters are naturals, scores and lives are integers.  Randomness
(`Math.random()` comparisons) is threaded in explicitly as boolean oracles.
React state reads inside a tick observe the value committed at the start of
the tick (the fixed-rate loop re-renders between ticks), so per-tick
functions take the stale values they read as explicit arguments where the
distinction matters.
-/

namespace DK

/-- Canvas width in pixels (`CANVAS_WIDTH = 224`). -/
def CANVAS_WIDTH : ℚ := 224

/-- Canvas height in pixels (`CANVAS_HEIGHT = 256`). -/
def CANVAS_HEIGHT : ℚ := 256

/-- Mario sprite width (`MARIO_WIDTH = 16`). -/
def MARIO_WIDTH : ℚ := 16

/-- Mario sprite height (`MARIO_HEIGHT = 16`). -/
def MARIO_HEIGHT : ℚ := 16

/-- Barrel sprite width (`BARREL_WIDTH = 16`). -/
def BARREL_WIDTH : ℚ := 16

/-- Barrel sprite height (`BARREL_HEIGHT = 14`). -/
def BARREL_HEIGHT : ℚ := 14

/-- Fireball sprite width (`FIREBALL_WIDTH = 8`). -/
def FIREBALL_WIDTH : ℚ := 8

/-- Fireball sprite height (`FIREBALL_HEIGHT = 8`). -/
def FIREBALL_HEIGHT : ℚ := 8

/-- Game phases (`enum GameState`). -/
inductive GameState where
  | TITLE_SCREEN
  | HOW_HIGH_SCREEN
  | LEVEL_INTRO
  | PLAYING
  | MARIO_DEATH
  | LEVEL_COMPLETE
  | GAME_OVER
  | HIGH_SCORE
  | INTERLUDE
deriving DecidableEq, Repr

/-- Level variants (`enum LevelType`). -/
inductive LevelType where
  | GIRDERS
  | RIVET
  | ELEVATOR
  | CONVEYOR
deriving DecidableEq, Repr

/-- Axis-aligned rectangle (`interface` shape of platforms and ladders). -/
structure Rect where
  x : ℚ
  y : ℚ
  width : ℚ
  height : ℚ
deriving DecidableEq, Repr

/-- Moving sprite (`interface Sprite`). -/
structure Sprite where
  x : ℚ
  y : ℚ
  width : ℚ
  height : ℚ
  vx : ℚ
  vy : ℚ
  frame : ℕ
  animTimer : ℕ
deriving DecidableEq, Repr

/-- Barrel hazard (`interface Barrel extends Sprite`). -/
structure Barrel where
  x : ℚ
  y : ℚ
  width : ℚ
  height : ℚ
  vx : ℚ
  vy : ℚ
  frame : ℕ
  animTimer : ℕ
  onLadder : Bool
  rolling : Bool
deriving DecidableEq, Repr

/-- Fireball hazard (`interface Fireball extends Sprite`). -/
structure Fireball where
  x : ℚ
  y : ℚ
  width : ℚ
  height : ℚ
  vx : ℚ
  vy : ℚ
  frame : ℕ
  animTimer : ℕ
  direction : ℚ
deriving DecidableEq, Repr

/-- Rivet (`interface Rivet`). -/
structure Rivet where
  x : ℚ
  y : ℚ
  removed : Bool
deriving DecidableEq, Repr

/-- Elevator platform (`interface Elevator`). -/
structure Elevator where
  x : ℚ
  y : ℚ
  height : ℚ
  direction : ℚ
  speed : ℚ
deriving DecidableEq, Repr

/-- Per-tick movement intents merged from keyboard and touch input. -/
structure Input where
  left : Bool
  right : Bool
  up : Bool
  down : Bool
  jump : Bool
deriving DecidableEq, Repr

/-- The no-intent input snapshot. -/
def input0 : Input := ⟨false, false, false, false, false⟩

/-- Randomness oracle for one tick of the full variant: `barrelBit i` is the
outcome of the `Math.random() < 0.02` ladder-engagement roll for the barrel
at position `i` of the list, and `fvx`/`fdir` decide a spawned fireball's
`vx` and `direction` signs. -/
structure Rand where
  barrelBit : ℕ → Bool
  fvx : Bool
  fdir : Bool

/-- Level 1 platform geometry (`girderPlatforms`). -/
def girderPlatforms : List Rect :=
  [⟨8, 232, 208, 8⟩, ⟨8, 200, 80, 8⟩, ⟨136, 200, 80, 8⟩,
   ⟨8, 168, 80, 8⟩, ⟨136, 168, 80, 8⟩, ⟨8, 136, 80, 8⟩,
   ⟨136, 136, 80, 8⟩, ⟨8, 104, 80, 8⟩, ⟨136, 104, 80, 8⟩,
   ⟨8, 72, 80, 8⟩, ⟨136, 72, 80, 8⟩, ⟨56, 40, 112, 8⟩]

/-- Level 1 ladder geometry (`girderLadders`). -/
def girderLadders : List Rect :=
  [⟨88, 200, 8, 32⟩, ⟨120, 168, 8, 32⟩, ⟨88, 136, 8, 32⟩,
   ⟨120, 104, 8, 32⟩, ⟨88, 72, 8, 32⟩, ⟨112, 40, 8, 32⟩]

/-- Level 2 platform geometry (`rivetPlatforms`). -/
def rivetPlatforms : List Rect :=
  [⟨8, 232, 208, 8⟩, ⟨8, 168, 208, 8⟩, ⟨8, 104, 208, 8⟩, ⟨56, 40, 112, 8⟩]

/-- Level 2 ladder geometry (`rivetLadders`). -/
def rivetLadders : List Rect :=
  [⟨32, 168, 8, 64⟩, ⟨88, 104, 8, 64⟩, ⟨136, 168, 8, 64⟩,
   ⟨184, 104, 8, 64⟩, ⟨112, 40, 8, 64⟩]

/-- Level 3 platform geometry (`elevatorPlatforms`). -/
def elevatorPlatforms : List Rect :=
  [⟨8, 232, 208, 8⟩, ⟨8, 40, 208, 8⟩]

/-- Level 4 platform geometry (`conveyorPlatforms`). -/
def conveyorPlatforms : List Rect :=
  [⟨8, 232, 208, 8⟩, ⟨8, 200, 64, 8⟩, ⟨88, 200, 48, 8⟩,
   ⟨152, 200, 64, 8⟩, ⟨8, 168, 64, 8⟩, ⟨152, 168, 64, 8⟩,
   ⟨56, 136, 112, 8⟩, ⟨56, 40, 112, 8⟩]

/-- Level 4 ladder geometry (`conveyorLadders`). -/
def conveyorLadders : List Rect :=
  [⟨72, 200, 8, 32⟩, ⟨144, 200, 8, 32⟩, ⟨72, 168, 8, 32⟩,
   ⟨144, 168, 8, 32⟩, ⟨112, 136, 8, 32⟩, ⟨112, 40, 8, 96⟩]

/-- Platform list of the current level (`getCurrentPlatforms`). -/
def platformsFor : LevelType → List Rect
  | .GIRDERS => girderPlatforms
  | .RIVET => rivetPlatforms
  | .ELEVATOR => elevatorPlatforms
  | .CONVEYOR => conveyorPlatforms

/-- Ladder list of the current level (`getCurrentLadders`); the elevator
level has no ladders. -/
def laddersFor : LevelType → List Rect
  | .GIRDERS => girderLadders
  | .RIVET => rivetLadders
  | .ELEVATOR => []
  | .CONVEYOR => conveyorLadders

/-- Axis-aligned rectangle overlap test (`checkCollision`). -/
def checkCollision (x1 y1 w1 h1 x2 y2 w2 h2 : ℚ) : Bool :=
  decide (x1 < x2 + w2) && decide (x1 + w1 > x2) &&
  decide (y1 < y2 + h2) && decide (y1 + h1 > y2)

/-- Overlap of Mario's sprite with a rectangle at `(x, y)` of size
`(w, h)`, as used for hazard contact (`checkCollision(mario.current, _)`). -/
def marioHits (m : Sprite) (x y w h : ℚ) : Bool :=
  checkCollision m.x m.y m.width m.height x y w h

/-- Whole game world of the full variant: the React state plus the mutable
refs that the game loop reads and writes. -/
structure World where
  gameState : GameState
  currentLevel : LevelType
  score : ℤ
  lives : ℤ
  level : ℕ
  highScore : ℤ
  bonus : ℤ
  marioHasHammer : Bool
  hammerTimer : ℕ
  mario : Sprite
  barrels : List Barrel
  fireballs : List Fireball
  rivets : List Rivet
  elevators : List Elevator
  gameTime : ℕ
  bonusTimer : ℕ
deriving DecidableEq, Repr

/-- Mario's spawn sprite (`resetMario`). -/
def marioStart : Sprite :=
  { x := 24, y := 232, width := MARIO_WIDTH, height := MARIO_HEIGHT,
    vx := 0, vy := 0, frame := 0, animTimer := 0 }

/-- The six rivets seeded for the rivet level (`initializeLevel`). -/
def initRivets : List Rivet :=
  [⟨8, 168, false⟩, ⟨208, 168, false⟩, ⟨8, 104, false⟩,
   ⟨208, 104, false⟩, ⟨56, 40, false⟩, ⟨160, 40, false⟩]

/-- The six elevators seeded for the elevator level (`initializeLevel`). -/
def initElevators : List Elevator :=
  [⟨32, 200, 32, -1, 1⟩, ⟨64, 150, 32, 1, 6/5⟩, ⟨96, 180, 32, -1, 4/5⟩,
   ⟨128, 120, 32, 1, 11/10⟩, ⟨160, 160, 32, -1, 9/10⟩, ⟨192, 140, 32, 1, 13/10⟩]

/-- Level (re)initialization (`initializeLevel`): clears hazard lists and
the power-up, resets bonus and its timer, re-seeds rivets/elevators for the
matching level, and respawns Mario. -/
def initializeLevel (w : World) : World :=
  { w with
    barrels := []
    fireballs := []
    elevators := if w.currentLevel = .ELEVATOR then initElevators else []
    marioHasHammer := false
    hammerTimer := 0
    bonus := 5000
    bonusTimer := 0
    rivets := if w.currentLevel = .RIVET then initRivets else w.rivets
    mario := marioStart }

/-- Platform-support test for Mario (`isOnPlatform`), including elevator
tops on the elevator level. -/
def isOnPlatform (lvl : LevelType) (elevs : List Elevator) (x y : ℚ) : Bool :=
  ((platformsFor lvl).any fun p =>
    decide (x + MARIO_WIDTH > p.x) && decide (x < p.x + p.width) &&
    decide (y + MARIO_HEIGHT ≥ p.y) && decide (y + MARIO_HEIGHT ≤ p.y + p.height + 4)) ||
  (decide (lvl = .ELEVATOR) &&
    elevs.any fun e =>
      decide (x + MARIO_WIDTH > e.x) && decide (x < e.x + 16) &&
      decide (y + MARIO_HEIGHT ≥ e.y) && decide (y + MARIO_HEIGHT ≤ e.y + 8))

/-- Ladder-zone membership for Mario's center (`canClimbLadder`). -/
def canClimbLadder (lvl : LevelType) (x y : ℚ) : Bool :=
  (laddersFor lvl).any fun l =>
    decide (x + MARIO_WIDTH / 2 ≥ l.x) && decide (x + MARIO_WIDTH / 2 ≤ l.x + l.width) &&
    decide (y + MARIO_HEIGHT ≥ l.y) && decide (y ≤ l.y + l.height)

/-- Landing test of Mario's foot against one platform: horizontal overlap
and foot inside the 8-pixel tolerance band below the top edge
(`updateMario`, platform-collision loop condition). -/
def marioPlatHit (m : Sprite) (p : Rect) : Bool :=
  decide (m.x + MARIO_WIDTH > p.x) && decide (m.x < p.x + p.width) &&
  decide (m.y + MARIO_HEIGHT > p.y) && decide (m.y + MARIO_HEIGHT < p.y + p.height + 8)

/-- Landing test of Mario's foot against one elevator (`updateMario`,
elevator-collision loop condition). -/
def marioElevHit (m : Sprite) (e : Elevator) : Bool :=
  decide (m.x + MARIO_WIDTH > e.x) && decide (m.x < e.x + 16) &&
  decide (m.y + MARIO_HEIGHT > e.y) && decide (m.y + MARIO_HEIGHT < e.y + 16)

/-- Snap Mario's foot onto the first platform whose landing test succeeds
and zero the vertical velocity (`updateMario`, platform-collision loop). -/
def resolvePlatforms (plats : List Rect) (m : Sprite) : Sprite :=
  match plats.find? (marioPlatHit m) with
  | some p => { m with y := p.y - MARIO_HEIGHT, vy := 0 }
  | none => m

/-- Snap Mario's foot onto the first elevator whose landing test succeeds,
zero the vertical velocity, and carry him by the elevator's per-tick
displacement (`updateMario`, elevator-collision loop). -/
def resolveElevators (elevs : List Elevator) (m : Sprite) : Sprite :=
  match elevs.find? (marioElevHit m) with
  | some e => { m with y := e.y - MARIO_HEIGHT + e.direction * e.speed, vy := 0 }
  | none => m

/-- Mario's landing resolution: applied only while falling (`m.vy > 0`),
first against platforms, then (elevator level only) against elevator tops. -/
def marioLand (lvl : LevelType) (elevs : List Elevator) (plats : List Rect)
    (m : Sprite) : Sprite :=
  if m.vy > 0 then
    let m1 := resolvePlatforms plats m
    if lvl = .ELEVATOR then resolveElevators elevs m1 else m1
  else m

/-- Conveyor-belt drift (`updateMario`, conveyor-belt effect): the first
platform with index `1 ≤ i ≤ len − 2` supporting Mario adds `±0.5` to `vx`
by index parity. -/
def conveyorDrift (plats : List Rect) (m : Sprite) : Sprite :=
  match ((plats.enum.drop 1).dropLast).find? (fun ip =>
      decide (m.x + MARIO_WIDTH > ip.2.x) && decide (m.x < ip.2.x + ip.2.width) &&
      decide (m.y + MARIO_HEIGHT ≥ ip.2.y) &&
      decide (m.y + MARIO_HEIGHT ≤ ip.2.y + ip.2.height + 4)) with
  | some ip => { m with vx := m.vx + (if ip.1 % 2 = 0 then 1/2 else -(1/2)) }
  | none => m

/-- One tick of Mario's physics (`updateMario`, up to and including the
animation step): input, conveyor drift, jump, ladder climb, gravity,
integration, landing resolution, horizontal clamping, animation. -/
def marioPhysics (i : Input) (lvl : LevelType) (elevs : List Elevator)
    (m : Sprite) : Sprite :=
  let moving := i.left || i.right
  let m := { m with vx := if i.left then -1 else if i.right then 1 else 0 }
  let m := if lvl = .CONVEYOR && isOnPlatform lvl elevs m.x m.y then
             conveyorDrift (platformsFor lvl) m
           else m
  let m := if i.jump && decide (m.vy = 0) && isOnPlatform lvl elevs m.x m.y then
             { m with vy := -4 }
           else m
  let m := if i.up then
             (if canClimbLadder lvl m.x m.y then { m with vy := -1, vx := 0 } else m)
           else if i.down then
             (if canClimbLadder lvl m.x m.y then { m with vy := 1, vx := 0 } else m)
           else m
  let m := if !canClimbLadder lvl m.x m.y then { m with vy := m.vy + 3/10 } else m
  let m := { m with x := m.x + m.vx, y := m.y + m.vy }
  let m := marioLand lvl elevs (platformsFor lvl) m
  let m := { m with x := max 0 (min (CANVAS_WIDTH - MARIO_WIDTH) m.x) }
  if moving then
    (if m.animTimer + 1 > 8 then { m with frame := (m.frame + 1) % 3, animTimer := 0 }
     else { m with animTimer := m.animTimer + 1 })
  else { m with frame := 0 }

/-- The two hammer spots of the girders level (`hammerPositions`). -/
def hammerSpots : List (ℚ × ℚ) := [(40, 192), (160, 128)]

/-- Proximity of Mario to some hammer spot (`updateMario`, hammer-pickup
loop condition). -/
def hammerNear (m : Sprite) : Bool :=
  hammerSpots.any fun q => decide (|m.x - q.1| < 16) && decide (|m.y - q.2| < 16)

/-- The hammer pickup fires this tick: girders level, hammer not already
held at the tick's start, and Mario's post-physics position within radius
of a hammer spot (`updateMario`, hammer pickup guard). -/
def hammerPickupFires (i : Input) (w : World) : Prop :=
  w.currentLevel = .GIRDERS ∧ w.marioHasHammer = false ∧
  hammerNear (marioPhysics i w.currentLevel w.elevators w.mario) = true

instance (i : Input) (w : World) : Decidable (hammerPickupFires i w) := by
  unfold hammerPickupFires; infer_instance

/-- Win-condition check (`checkWinCondition`), run after Mario's physics:
girders/elevators/conveyors complete on the goal rectangle
(`y ≤ 48 ∧ 56 ≤ x ≤ 168`) and award the bonus; the rivet level enters the
interlude when every rivet is removed, also awarding the bonus. -/
def checkWinCondition (w : World) : World :=
  match w.currentLevel with
  | .GIRDERS =>
      if w.mario.y ≤ 48 ∧ w.mario.x ≥ 56 ∧ w.mario.x ≤ 168 then
        { w with gameState := .LEVEL_COMPLETE, score := w.score + w.bonus }
      else w
  | .RIVET =>
      if w.rivets.all (fun r => r.removed) then
        { w with gameState := .INTERLUDE, score := w.score + w.bonus }
      else w
  | .ELEVATOR | .CONVEYOR =>
      if w.mario.y ≤ 48 ∧ w.mario.x ≥ 56 ∧ w.mario.x ≤ 168 then
        { w with gameState := .LEVEL_COMPLETE, score := w.score + w.bonus }
      else w

/-- Fall-off-screen death trigger (`updateMario`, death check): entering
the death phase when Mario's post-physics `y` exceeds the screen height. -/
def deathCheck (w : World) : World :=
  if w.mario.y > CANVAS_HEIGHT then { w with gameState := .MARIO_DEATH } else w

/-- Effect of a firing hammer pickup (`updateMario`, hammer-pickup block):
set the power-up flag and start the 300-tick countdown. -/
def hammerGrant (fires : Bool) (w : World) : World :=
  if fires then { w with marioHasHammer := true, hammerTimer := 300 } else w

/-- The hammer countdown (`updateMario`, hammer-timer block): guarded by
the hammer flag committed at the start of the tick, the timer falls by one
with the flag cleared on reaching zero. -/
def hammerCountdown (hadHammer : Bool) (w : World) : World :=
  if hadHammer then
    (if w.hammerTimer ≤ 1 then { w with marioHasHammer := false, hammerTimer := 0 }
     else { w with hammerTimer := w.hammerTimer - 1 })
  else w

/-- One tick of Mario's update (`updateMario`): physics, fall-off-screen
death, hammer pickup, hammer countdown (both hammer guards read the flag
committed at the start of the tick), then the win-condition check. -/
def updateMario (i : Input) (w : World) : World :=
  checkWinCondition
    (hammerCountdown w.marioHasHammer
      (hammerGrant (decide (hammerPickupFires i w))
        (deathCheck { w with mario := marioPhysics i w.currentLevel w.elevators w.mario })))

/-- Landing test of a barrel against one platform (`updateBarrels`,
platform-collision loop condition). -/
def barrelPlatHit (b : Barrel) (p : Rect) : Bool :=
  decide (b.x + BARREL_WIDTH > p.x) && decide (b.x < p.x + p.width) &&
  decide (b.y + BARREL_HEIGHT > p.y) && decide (b.y + BARREL_HEIGHT < p.y + p.height + 8)

/-- Ladder-engagement test of a barrel (`updateBarrels`, ladder-interaction
loop condition). -/
def barrelLadderHit (b : Barrel) (l : Rect) : Bool :=
  decide (b.x + BARREL_WIDTH / 2 ≥ l.x) &&
  decide (b.x + BARREL_WIDTH / 2 ≤ l.x + l.width) &&
  decide (b.y + BARREL_HEIGHT ≥ l.y)

/-- One tick of a single barrel's motion (`updateBarrels`, loop body up to
the animation step): integration, gravity off ladders, landing resolution
while descending, randomized ladder engagement, animation.  `rb` is the
outcome of this barrel's `Math.random() < 0.02` roll. -/
def barrelPhysics (plats lads : List Rect) (rb : Bool) (b : Barrel) : Barrel :=
  let b := { b with x := b.x + b.vx, y := b.y + b.vy }
  let b := if !b.onLadder then { b with vy := b.vy + 3/10 } else b
  let b := if b.vy > 0 then
             match plats.find? (barrelPlatHit b) with
             | some p => { b with y := p.y - BARREL_HEIGHT, vy := 0, onLadder := false }
             | none => b
           else b
  let b := if !b.onLadder && rb then
             match lads.find? (barrelLadderHit b) with
             | some _ => { b with onLadder := true, vy := 2, vx := 0 }
             | none => b
           else b
  if b.animTimer + 1 > 6 then { b with frame := (b.frame + 1) % 4, animTimer := 0 }
  else { b with animTimer := b.animTimer + 1 }

/-- A barrel has left the screen (`updateBarrels`, removal condition). -/
def barrelOffscreen (b : Barrel) : Bool :=
  decide (b.y > CANVAS_HEIGHT) || decide (b.x < -20) || decide (b.x > CANVAS_WIDTH + 20)

/-- One barrel's full per-tick outcome (`updateBarrels`, loop body):
the surviving barrel if any, the score awarded, and whether lethal contact
with Mario occurred.  `hammer` is the hammer flag committed at the start of
the tick, `m` Mario's post-physics sprite. -/
def updateBarrel (hammer : Bool) (plats lads : List Rect) (m : Sprite)
    (rb : Bool) (b : Barrel) : Option Barrel × ℤ × Bool :=
  let b := barrelPhysics plats lads rb b
  if barrelOffscreen b then (none, 0, false)
  else
    let hit := marioHits m b.x b.y b.width b.height
    if !hammer && hit then (some b, 0, true)
    else if hammer && hit then (none, 300, false)
    else (some b, 0, false)

/-- Per-tick pass over the barrel list (`updateBarrels`, the `filter`):
surviving barrels in order, total score awarded, and whether any lethal
contact occurred.  The index feeds each barrel its own random roll. -/
def processBarrels (hammer : Bool) (plats lads : List Rect) (m : Sprite)
    (r : ℕ → Bool) : ℕ → List Barrel → List Barrel × ℤ × Bool
  | _, [] => ([], 0, false)
  | i, b :: bs =>
      let o := updateBarrel hammer plats lads m (r i) b
      let rest := processBarrels hammer plats lads m r (i + 1) bs
      (o.1.toList ++ rest.1, o.2.1 + rest.2.1, o.2.2 || rest.2.2)

/-- The barrel spawned at the fixed anchor (`updateBarrels`, spawn push). -/
def newBarrel : Barrel :=
  { x := 56, y := 72, width := BARREL_WIDTH, height := BARREL_HEIGHT,
    vx := 1, vy := 0, frame := 0, animTimer := 0, onLadder := false, rolling := true }

/-- Barrel spawn condition (`updateBarrels`, spawn guard): girders level,
tick counter a multiple of 120, fewer than 4 live barrels. -/
def barrelSpawnCond (w : World) : Prop :=
  w.currentLevel = .GIRDERS ∧ w.gameTime % 120 = 0 ∧ w.barrels.length < 4

instance (w : World) : Decidable (barrelSpawnCond w) := by
  unfold barrelSpawnCond; infer_instance

/-- Barrel spawn phase (`updateBarrels`, spawn `push`). -/
def spawnBarrels (w : World) : List Barrel :=
  if barrelSpawnCond w then w.barrels ++ [newBarrel] else w.barrels

/-- One tick of the barrel subsystem (`updateBarrels`): spawn, then the
per-barrel pass; lethal contact queues the death phase, hammer contact
accumulates score.  `hammer` is the hammer flag committed at the start of
the tick. -/
def updateBarrels (hammer : Bool) (r : ℕ → Bool) (w : World) : World :=
  let bs := spawnBarrels w
  let res := processBarrels hammer (platformsFor w.currentLevel)
    (laddersFor w.currentLevel) w.mario r 0 bs
  { w with barrels := res.1, score := w.score + res.2.1,
           gameState := if res.2.2 then .MARIO_DEATH else w.gameState }

/-- Landing test of a fireball against one platform (`updateFireballs`,
platform-collision loop condition). -/
def fireballPlatHit (f : Fireball) (p : Rect) : Bool :=
  decide (f.x + FIREBALL_WIDTH > p.x) && decide (f.x < p.x + p.width) &&
  decide (f.y + FIREBALL_HEIGHT > p.y) && decide (f.y + FIREBALL_HEIGHT < p.y + p.height + 8)

/-- One tick of a single fireball's motion (`updateFireballs`, loop body up
to the animation step): integration, gravity, bounce on platform contact
(`vy := −2`), wall reversal, animation. -/
def fireballPhysics (plats : List Rect) (f : Fireball) : Fireball :=
  let f := { f with x := f.x + f.vx, y := f.y + f.vy }
  let f := { f with vy := f.vy + 1/5 }
  let f := if f.vy > 0 then
             match plats.find? (fireballPlatHit f) with
             | some p => { f with y := p.y - FIREBALL_HEIGHT, vy := -2 }
             | none => f
           else f
  let f := if decide (f.x ≤ 0) || decide (f.x ≥ CANVAS_WIDTH - FIREBALL_WIDTH) then
             { f with vx := -f.vx }
           else f
  if f.animTimer + 1 > 4 then { f with frame := (f.frame + 1) % 4, animTimer := 0 }
  else { f with animTimer := f.animTimer + 1 }

/-- One fireball's full per-tick outcome (`updateFireballs`, loop body):
the surviving fireball if any, and whether contact with Mario occurred
(contact is lethal regardless of the hammer and keeps the fireball). -/
def updateFireball (plats : List Rect) (m : Sprite) (f : Fireball) :
    Option Fireball × Bool :=
  let f := fireballPhysics plats f
  if f.y > CANVAS_HEIGHT then (none, false)
  else (some f, marioHits m f.x f.y f.width f.height)

/-- Per-tick pass over the fireball list (`updateFireballs`, the
`filter`). -/
def processFireballs (plats : List Rect) (m : Sprite) :
    List Fireball → List Fireball × Bool
  | [] => ([], false)
  | f :: fs =>
      let o := updateFireball plats m f
      let rest := processFireballs plats m fs
      (o.1.toList ++ rest.1, o.2 || rest.2)

/-- The fireball spawned at the fixed anchor (`updateFireballs`, spawn
push); `rvx` and `rdir` are the two `Math.random() > 0.5` outcomes. -/
def newFireball (rvx rdir : Bool) : Fireball :=
  { x := 24, y := 232, width := FIREBALL_WIDTH, height := FIREBALL_HEIGHT,
    vx := if rvx then 1 else -1, vy := 0, frame := 0, animTimer := 0,
    direction := if rdir then 1 else -1 }

/-- Fireball spawn condition (`updateFireballs`, spawn guard): rivet level,
tick counter a multiple of 180, fewer than 2 live fireballs. -/
def fireballSpawnCond (w : World) : Prop :=
  w.currentLevel = .RIVET ∧ w.gameTime % 180 = 0 ∧ w.fireballs.length < 2

instance (w : World) : Decidable (fireballSpawnCond w) := by
  unfold fireballSpawnCond; infer_instance

/-- Fireball spawn phase (`updateFireballs`, spawn `push`). -/
def spawnFireballs (rvx rdir : Bool) (w : World) : List Fireball :=
  if fireballSpawnCond w then w.fireballs ++ [newFireball rvx rdir] else w.fireballs

/-- One tick of the fireball subsystem (`updateFireballs`): spawn, then the
per-fireball pass; any contact with Mario queues the death phase. -/
def updateFireballs (r : Rand) (w : World) : World :=
  let fs := spawnFireballs r.fvx r.fdir w
  let res := processFireballs (platformsFor w.currentLevel) w.mario fs
  { w with fireballs := res.1,
           gameState := if res.2 then .MARIO_DEATH else w.gameState }

/-- One tick of a single elevator (`updateElevators`, loop body): move by
`direction * speed`, reversing direction at the 50/200 bounds. -/
def stepElevator (e : Elevator) : Elevator :=
  let y := e.y + e.direction * e.speed
  if y ≤ 50 ∨ y ≥ 200 then { e with y := y, direction := -e.direction }
  else { e with y := y }

/-- One tick of the elevator subsystem (`updateElevators`); a no-op outside
the elevator level. -/
def updateElevators (w : World) : World :=
  if w.currentLevel = .ELEVATOR then
    { w with elevators := w.elevators.map stepElevator }
  else w

/-- One rivet's per-tick outcome (`updateRivets`, loop body): removed with
a 100-point award when Mario is within the proximity box. -/
def stepRivet (m : Sprite) (r : Rivet) : Rivet × ℤ :=
  if !r.removed && decide (|m.x - r.x| < 8) && decide (|m.y - r.y| < 8) then
    ({ r with removed := true }, 100)
  else (r, 0)

/-- Per-tick pass over the rivet list (`updateRivets`, the `forEach`). -/
def processRivets (m : Sprite) : List Rivet → List Rivet × ℤ
  | [] => ([], 0)
  | r :: rs =>
      let o := stepRivet m r
      let rest := processRivets m rs
      (o.1 :: rest.1, o.2 + rest.2)

/-- One tick of the rivet subsystem (`updateRivets`); a no-op outside the
rivet level. -/
def updateRivets (w : World) : World :=
  if w.currentLevel = .RIVET then
    let res := processRivets w.mario w.rivets
    { w with rivets := res.1, score := w.score + res.2 }
  else w

/-- One tick of the bonus countdown (`updateBonus`): every 60th tick the
bonus drops by 100, floored at 0. -/
def updateBonus (w : World) : World :=
  if w.bonusTimer + 1 ≥ 60 then
    { w with bonus := max 0 (w.bonus - 100), bonusTimer := 0 }
  else { w with bonusTimer := w.bonusTimer + 1 }

/-- One tick of the whole simulation (`gameLoop`): the tick counter always
advances; in the playing phase the subsystem updates run in their fixed
order (Mario, barrels, fireballs, elevators, rivets, bonus), with the
barrel pass reading the hammer flag committed at the start of the tick. -/
def gameLoop (i : Input) (r : Rand) (w : World) : World :=
  let w1 := { w with gameTime := w.gameTime + 1 }
  if w.gameState = .PLAYING then
    let hadHammer := w.marioHasHammer
    let w2 := updateMario i w1
    let w3 := updateBarrels hadHammer r.barrelBit w2
    let w4 := updateFireballs r w3
    let w5 := updateElevators w4
    let w6 := updateRivets w5
    updateBonus w6
  else w1

/-- The death-acknowledge branch of the click handler (`handleCanvasClick`,
`MARIO_DEATH` case): with more than one life left, consume a life, respawn
Mario and resume playing; otherwise enter the game-over phase. -/
def deathAcknowledge (w : World) : World :=
  if 1 < w.lives then
    { w with lives := w.lives - 1, mario := marioStart, gameState := .PLAYING }
  else { w with gameState := .GAME_OVER }

end DK

namespace Atari

/-- Game phases of the reduced variant (`gameState` union type). -/
inductive AGameState where
  | title
  | playing
  | gameOver
  | levelComplete
deriving DecidableEq, Repr

/-- Mario's state in the reduced variant (the `mario` state record). -/
structure AMario where
  x : ℚ
  y : ℚ
  onGround : Bool
  jumping : Bool
  climbing : Bool
  direction : ℤ
  hasHammer : Bool
  hammerTimer : ℤ
  animFrame : ℕ
deriving DecidableEq, Repr

/-- A static game object (`interface GameObject`), used for the hammer. -/
structure AObj where
  x : ℚ
  y : ℚ
  width : ℚ
  height : ℚ
  active : Bool
deriving DecidableEq, Repr

/-- Barrel of the reduced variant (`interface Barrel`). -/
structure ABarrel where
  x : ℚ
  y : ℚ
  width : ℚ
  height : ℚ
  active : Bool
  direction : ℚ
  speed : ℚ
  onLadder : Bool
deriving DecidableEq, Repr

/-- Fireball of the reduced variant (`interface Fireball`). -/
structure AFireball where
  x : ℚ
  y : ℚ
  width : ℚ
  height : ℚ
  active : Bool
  direction : ℚ
  speed : ℚ
  climbing : Bool
deriving DecidableEq, Repr

/-- Whole game state of the reduced variant. -/
structure AWorld where
  gameState : AGameState
  score : ℤ
  lives : ℤ
  level : ℕ
  highScore : ℤ
  mario : AMario
  barrels : List ABarrel
  fireballs : List AFireball
  hammer : Option AObj
  bonus : ℤ
deriving DecidableEq, Repr

/-- The five platforms of the single screen (`platforms`). -/
def aPlatforms : List DK.Rect :=
  [⟨0, 220, 320, 8⟩, ⟨40, 180, 240, 8⟩, ⟨0, 140, 280, 8⟩,
   ⟨40, 100, 240, 8⟩, ⟨0, 60, 320, 8⟩]

/-- The four ladders of the single screen (`ladders`). -/
def aLadders : List DK.Rect :=
  [⟨80, 180, 16, 40⟩, ⟨240, 140, 16, 40⟩, ⟨80, 100, 16, 40⟩, ⟨240, 60, 16, 40⟩]

/-- Axis-aligned rectangle overlap test (`checkCollision`). -/
def checkCollisionA (x1 y1 w1 h1 x2 y2 w2 h2 : ℚ) : Bool :=
  decide (x1 < x2 + w2) && decide (x1 + w1 > x2) &&
  decide (y1 < y2 + h2) && decide (y1 + h1 > y2)

/-- Overlap of Mario's 16×16 rectangle (`marioRect` in `checkCollisions`)
with a rectangle at `(x, y)` of size `(w, h)`. -/
def marioOverlapA (m : AMario) (x y w h : ℚ) : Bool :=
  checkCollisionA m.x m.y 16 16 x y w h

/-- Mario's spawn state (`resetGame`). -/
def aMarioStart : AMario :=
  { x := 50, y := 200, onGround := true, jumping := false, climbing := false,
    direction := 1, hasHammer := false, hammerTimer := 0, animFrame := 0 }

/-- The fresh hammer placed by `resetGame`. -/
def aHammerStart : Option AObj :=
  some { x := 120, y := 160, width := 16, height := 16, active := true }

/-- Level-attempt reset (`resetGame`): respawn Mario, clear hazards, place
a fresh active hammer, restore the bonus pool. -/
def resetGameA (w : AWorld) : AWorld :=
  { w with mario := aMarioStart, barrels := [], fireballs := [],
           hammer := aHammerStart, bonus := 5000 }

/-- Death handling (`loseLife`): decrement lives; with none left enter
game-over (committing a new high score when beaten), otherwise restart the
attempt. -/
def loseLifeA (w : AWorld) : AWorld :=
  let nl := w.lives - 1
  if nl ≤ 0 then
    { w with lives := nl, gameState := .gameOver,
             highScore := if w.score > w.highScore then w.score else w.highScore }
  else { (resetGameA w) with lives := nl }

/-- One platform's landing test for Mario (`updateMario`, platform
`forEach` body); later matching platforms override earlier ones. -/
def aPlatStep (m : AMario) (p : DK.Rect) : AMario :=
  if decide (m.x + 16 > p.x) && decide (m.x < p.x + p.width) &&
     decide (m.y + 16 ≥ p.y) && decide (m.y + 16 ≤ p.y + p.height + 5) then
    { m with y := p.y - 16, onGround := true, jumping := false }
  else m

/-- Horizontal movement step of Mario's update (`updateMario`, left/right
input block), suppressed while climbing. -/
def aMarioHoriz (i : DK.Input) (m : AMario) : AMario :=
  if i.left && !m.climbing then
    { m with x := max 0 (m.x - 2), direction := -1,
             animFrame := (m.animFrame + 1) % 4 }
  else if i.right && !m.climbing then
    { m with x := min 304 (m.x + 2), direction := 1,
             animFrame := (m.animFrame + 1) % 4 }
  else m

/-- Ladder-climbing step of Mario's update (`updateMario`, ladder block):
on a ladder, up/down move and set the climbing flag, otherwise it clears. -/
def aMarioClimb (i : DK.Input) (m : AMario) : AMario :=
  if aLadders.any (fun l =>
      decide (m.x + 8 ≥ l.x) && decide (m.x + 8 ≤ l.x + l.width) &&
      decide (m.y + 16 ≥ l.y) && decide (m.y ≤ l.y + l.height)) then
    (if i.up then { m with y := max 0 (m.y - 2), climbing := true, onGround := false }
     else if i.down then { m with y := min 220 (m.y + 2), climbing := true, onGround := false }
     else { m with climbing := false })
  else { m with climbing := false }

/-- Jump trigger of Mario's update (`updateMario`, jump block). -/
def aMarioJump (i : DK.Input) (m : AMario) : AMario :=
  if i.jump && m.onGround && !m.jumping && !m.climbing then
    { m with jumping := true, onGround := false }
  else m

/-- Gravity and jump-arc step of Mario's update (`updateMario`,
gravity/jumping block); `prevY` is the `prev.y` the jump-apex test reads. -/
def aMarioGravity (prevY : ℚ) (m : AMario) : AMario :=
  if !m.onGround && !m.climbing then
    (if m.jumping then
       let m2 := { m with y := m.y - 4 }
       (if m2.y ≤ prevY - 32 then { m2 with jumping := false } else m2)
     else { m with y := m.y + 3 })
  else m

/-- Mario's per-tick movement (`updateMario`, up to the platform pass):
horizontal movement, ladder climbing, jumping, gravity, platform landing. -/
def aMarioPhysics (i : DK.Input) (prevY : ℚ) (m : AMario) : AMario :=
  aPlatforms.foldl aPlatStep
    { aMarioGravity prevY (aMarioJump i (aMarioClimb i (aMarioHoriz i m))) with
      onGround := false }

/-- The hammer countdown inside Mario's update (`updateMario`, hammer
logic): while held the timer falls by one, clearing the flag at zero. -/
def aHammerCountdown (m : AMario) : AMario :=
  if m.hasHammer then
    let m2 := { m with hammerTimer := m.hammerTimer - 1 }
    (if m2.hammerTimer ≤ 0 then { m2 with hasHammer := false } else m2)
  else m

/-- One tick of Mario's update (`updateMario`): movement and landing, the
hammer countdown, then the hammer pickup, which requires the spot to still
be active and marks it inactive. -/
def updateMarioA (i : DK.Input) (w : AWorld) : AWorld :=
  if w.gameState ≠ .playing then w else
  let m := aHammerCountdown (aMarioPhysics i w.mario.y w.mario)
  match w.hammer with
  | some h =>
      if h.active && decide (|m.x - h.x| < 20) && decide (|m.y - h.y| < 20) then
        { w with mario := { m with hasHammer := true, hammerTimer := 300 },
                 hammer := some { h with active := false } }
      else { w with mario := m }
  | none => { w with mario := m }

/-- The barrel spawned at the fixed anchor (`updateBarrels`, spawn push);
speed scales with level (`1 + level * 0.2`). -/
def aBarrelSpawn (level : ℕ) : ABarrel :=
  { x := 40, y := 44, width := 16, height := 16, active := true,
    direction := 1, speed := 1 + (level : ℚ) / 5, onLadder := false }

/-- Edge bounce of a barrel on its current platform (`updateBarrels`,
platform-boundaries block): the first platform whose top band contains the
barrel's foot reverses it at either end. -/
def aBarrelBounce (b : ABarrel) : ABarrel :=
  match aPlatforms.find? (fun p =>
      decide (b.y + b.height ≥ p.y) &&
      decide (b.y + b.height ≤ p.y + p.height + 5)) with
  | some p =>
      if b.x ≤ p.x then { b with x := p.x, direction := 1 }
      else if b.x + b.width ≥ p.x + p.width then
        { b with x := p.x + p.width - b.width, direction := -1 }
      else b
  | none => b

/-- Randomized ladder attachment of a barrel (`updateBarrels`,
ladder-descent block). -/
def aBarrelCatchLadder (b : ABarrel) : ABarrel :=
  match aLadders.find? (fun l =>
      decide (|b.x - l.x| < 20) && decide (b.y + b.height ≥ l.y)) with
  | some l => { b with onLadder := true, x := l.x }
  | none => b

/-- Ladder descent of a barrel (`updateBarrels`, ladder-movement block):
slide down, releasing at the ladder's bottom. -/
def aBarrelRideLadder (b : ABarrel) : ABarrel :=
  let b2 := { b with y := b.y + b.speed }
  match aLadders.find? (fun l => decide (|b2.x - l.x| < 10)) with
  | some l => if b2.y ≥ l.y + l.height then { b2 with onLadder := false } else b2
  | none => b2

/-- One tick of a single barrel (`updateBarrels`, map body): slide along
the current platform, bounce at its edges, randomized ladder descent,
deactivation off the bottom of the screen.  `rlad` is this barrel's
`Math.random() < 0.1` roll. -/
def stepBarrelA (rlad : Bool) (b : ABarrel) : ABarrel :=
  if !b.active then b else
  let b := { b with x := b.x + b.direction * b.speed }
  let b := aBarrelBounce b
  let b := if !b.onLadder && rlad then aBarrelCatchLadder b else b
  let b := if b.onLadder then aBarrelRideLadder b else b
  if b.y > 240 then { b with active := false } else b

/-- Indexed pass over the barrel list (`updateBarrels`, the `map`). -/
def stepBarrelsA (rlad : ℕ → Bool) : ℕ → List ABarrel → List ABarrel
  | _, [] => []
  | i, b :: bs => stepBarrelA (rlad i) b :: stepBarrelsA rlad (i + 1) bs

/-- One tick of the barrel subsystem (`updateBarrels`): randomized spawn,
per-barrel update, then pruning of inactive barrels. -/
def updateBarrelsA (rspawn : Bool) (rlad : ℕ → Bool) (w : AWorld) : AWorld :=
  if w.gameState ≠ .playing then w else
  let bs := if rspawn then w.barrels ++ [aBarrelSpawn w.level] else w.barrels
  { w with barrels := (stepBarrelsA rlad 0 bs).filter (fun b => b.active) }

/-- The fireball spawned at the fixed anchor (`updateFireballs`, spawn
push); direction is random, speed scales with level (`0.5 + level * 0.1`). -/
def aFireballSpawn (level : ℕ) (rdir : Bool) : AFireball :=
  { x := 160, y := 200, width := 12, height := 12, active := true,
    direction := if rdir then 1 else -1, speed := 1/2 + (level : ℚ) / 10,
    climbing := false }

/-- One tick of a single fireball (`updateFireballs`, map body): patrol
horizontally bouncing at the side bounds with randomized ladder
attachment, or drift randomly up/down a ladder until a randomized release. -/
def stepFireballA (rclimb rupdown rstop : Bool) (f : AFireball) : AFireball :=
  if !f.active then f else
  if !f.climbing then
    let f := { f with x := f.x + f.direction * f.speed }
    let f := if decide (f.x ≤ 0) || decide (f.x ≥ 304) then
               { f with direction := -f.direction }
             else f
    if rclimb then
      match aLadders.find? (fun l => decide (|f.x - l.x| < 20)) with
      | some l => { f with climbing := true, x := l.x }
      | none => f
    else f
  else
    let f := { f with y := f.y + (if rupdown then 1 else -1) * f.speed }
    if rstop then { f with climbing := false } else f

/-- Indexed pass over the fireball list (`updateFireballs`, the `map`). -/
def stepFireballsA (rclimb rupdown rstop : ℕ → Bool) : ℕ → List AFireball → List AFireball
  | _, [] => []
  | i, f :: fs =>
      stepFireballA (rclimb i) (rupdown i) (rstop i) f :: stepFireballsA rclimb rupdown rstop (i + 1) fs

/-- One tick of the fireball subsystem (`updateFireballs`). -/
def updateFireballsA (rspawn rdir : Bool) (rclimb rupdown rstop : ℕ → Bool)
    (w : AWorld) : AWorld :=
  if w.gameState ≠ .playing then w else
  let fs := if rspawn then w.fireballs ++ [aFireballSpawn w.level rdir] else w.fireballs
  { w with fireballs := (stepFireballsA rclimb rupdown rstop 0 fs).filter (fun f => f.active) }

/-- Outcome of Mario meeting one barrel (`checkCollisions`, barrel loop
body): with the hammer the barrel is deactivated and 300 points awarded;
without it a life is lost. -/
def collideBarrelA (m : AMario) (w : AWorld) (b : ABarrel) : AWorld :=
  if b.active && marioOverlapA m b.x b.y b.width b.height then
    (if m.hasHammer then
      { w with score := w.score + 300,
               barrels := w.barrels.map fun c =>
                 if c = b then { c with active := false } else c }
     else loseLifeA w)
  else w

/-- Outcome of Mario meeting one fireball (`checkCollisions`, fireball
loop body): with the hammer the fireball is deactivated and 500 points
awarded; without it a life is lost. -/
def collideFireballA (m : AMario) (w : AWorld) (f : AFireball) : AWorld :=
  if f.active && marioOverlapA m f.x f.y f.width f.height then
    (if m.hasHammer then
      { w with score := w.score + 500,
               fireballs := w.fireballs.map fun g =>
                 if g = f then { g with active := false } else g }
     else loseLifeA w)
  else w

/-- The per-tick collision pass (`checkCollisions`): every barrel, then
every fireball, then the goal test (`x > 280 ∧ y < 80`) completing the
level. -/
def checkCollisionsA (w : AWorld) : AWorld :=
  if w.gameState ≠ .playing then w else
  let m := w.mario
  let w1 := w.barrels.foldl (collideBarrelA m) w
  let w2 := w.fireballs.foldl (collideFireballA m) w1
  if m.x > 280 ∧ m.y < 80 then { w2 with gameState := .levelComplete } else w2

/-- The inline bonus decay of the reduced variant's game loop
(`setBonus(prev => Math.max(0, prev - 1))`). -/
def atariBonusStep (b : ℤ) : ℤ := max 0 (b - 1)

/-- Randomness oracle for one tick of the reduced variant: spawn rolls,
the spawned fireball's direction, and the per-index barrel/fireball rolls. -/
structure ARand where
  bSpawn : Bool
  bLad : ℕ → Bool
  fSpawn : Bool
  fDir : Bool
  fClimb : ℕ → Bool
  fUpDown : ℕ → Bool
  fStop : ℕ → Bool

/-- One tick of the reduced variant's game loop (the `gameLoop` closure of
the playing-phase effect): Mario, barrels, fireballs, collisions, bonus
decay; no tick runs outside the playing phase. -/
def atariTick (i : DK.Input) (r : ARand) (w : AWorld) : AWorld :=
  if w.gameState ≠ .playing then w else
  let w1 := updateMarioA i w
  let w2 := updateBarrelsA r.bSpawn r.bLad w1
  let w3 := updateFireballsA r.fSpawn r.fDir r.fClimb r.fUpDown r.fStop w2
  let w4 := checkCollisionsA w3
  { w4 with bonus := atariBonusStep w4.bonus }

end Atari

/-! Concrete sample data used to instantiate the theorems below. -/

/-- An all-false randomness oracle for the full variant. -/
def rand0 : DK.Rand := ⟨fun _ => false, false, false⟩

/-- An all-false randomness oracle for the reduced variant. -/
def arand0 : Atari.ARand :=
  ⟨false, fun _ => false, false, false, fun _ => false, fun _ => false, fun _ => false⟩

/-- Trace of full-variant worlds obtained by iterating `DK.updateMario`
under the input stream `ins`. -/
def hammerTrace (ins : ℕ → DK.Input) (w0 : DK.World) : ℕ → DK.World
  | 0 => w0
  | k + 1 => DK.updateMario (ins k) (hammerTrace ins w0 k)

/-- A playing-phase girders world with Mario resting at `(40, 184)`, right
on the first hammer spot, holding no hammer. -/
def c9w0 : DK.World :=
  { gameState := .PLAYING, currentLevel := .GIRDERS, score := 0, lives := 3,
    level := 1, highScore := 0, bonus := 5000, marioHasHammer := false,
    hammerTimer := 0,
    mario := { x := 40, y := 184, width := 16, height := 16, vx := 0, vy := 0,
               frame := 0, animTimer := 0 },
    barrels := [], fireballs := [], rivets := [], elevators := [],
    gameTime := 1, bonusTimer := 0 }

/-- The trace of `c9w0` under no input. -/
def c9trace : ℕ → DK.World := hammerTrace (fun _ => DK.input0) c9w0

/-- A playing-phase rivet-level world in which Mario has just picked up a
hammer: flag set and 300 ticks on the countdown. -/
def c3w : DK.World :=
  { c9w0 with currentLevel := .RIVET, marioHasHammer := true,
              hammerTimer := 300, rivets := DK.initRivets }

/-- A fireball about to collide with Mario next tick. -/
def c1fire : DK.Fireball :=
  { x := 23, y := 230, width := 8, height := 8, vx := 1, vy := 0, frame := 0,
    animTimer := 0, direction := 1 }

/-- A playing-phase rivet world where Mario holds the power-up and
`c1fire` reaches him this tick. -/
def c1world : DK.World :=
  { gameState := .PLAYING, currentLevel := .RIVET, score := 1234, lives := 3,
    level := 2, highScore := 0, bonus := 5000, marioHasHammer := true,
    hammerTimer := 200,
    mario := { x := 24, y := 220, width := 16, height := 16, vx := 0, vy := 0,
               frame := 0, animTimer := 0 },
    barrels := [], fireballs := [c1fire], rivets := DK.initRivets,
    elevators := [], gameTime := 1, bonusTimer := 0 }

/-- First death acknowledged from a fresh three-life game. -/
def c2d1 : DK.World := DK.deathAcknowledge { c9w0 with gameState := .MARIO_DEATH }

/-- Second death acknowledged. -/
def c2d2 : DK.World := DK.deathAcknowledge { c2d1 with gameState := .MARIO_DEATH }

/-- Third death acknowledged. -/
def c2d3 : DK.World := DK.deathAcknowledge { c2d2 with gameState := .MARIO_DEATH }

/-- A fresh playing-phase world of the reduced variant. -/
def aw0 : Atari.AWorld :=
  { gameState := .playing, score := 0, lives := 3, level := 1, highScore := 0,
    mario := Atari.aMarioStart, barrels := [], fireballs := [],
    hammer := Atari.aHammerStart, bonus := 5000 }

/-- First, second, third life lost in the reduced variant. -/
def c2s1 : Atari.AWorld := Atari.loseLifeA aw0

/-- Second life lost in the reduced variant. -/
def c2s2 : Atari.AWorld := Atari.loseLifeA c2s1

/-- Third life lost in the reduced variant. -/
def c2s3 : Atari.AWorld := Atari.loseLifeA c2s2

/-- A girders world with Mario inside the goal rectangle. -/
def c8w : DK.World :=
  { c9w0 with mario := { c9w0.mario with x := 100, y := 40 } }

/-- A rivet world with every rivet removed. -/
def c7w : DK.World :=
  { c3w with marioHasHammer := false, hammerTimer := 0,
             rivets := DK.initRivets.map (fun r => { r with removed := true }) }

/-- A girders world on a spawn tick (`gameTime` a multiple of 120). -/
def c6w : DK.World := { c9w0 with gameTime := 240 }

/-- A title-screen world, for the frozen-tick claim. -/
def c10w : DK.World := { c9w0 with gameState := .TITLE_SCREEN }

/-- A game-over world of the reduced variant. -/
def c10aw : Atari.AWorld := { aw0 with gameState := .gameOver }

/-- A falling Mario sprite above the bottom girder platform. -/
def c5mario : DK.Sprite :=
  { x := 24, y := 217, width := 16, height := 16, vx := 0, vy := 1,
    frame := 0, animTimer := 0 }

/-- A full-variant barrel resting beside Mario at `(40, 184)`: its tick
lands it on the `y = 200` girder, overlapping Mario. -/
def c1barrel : DK.Barrel :=
  { x := 41, y := 186, width := 16, height := 14, vx := 0, vy := 0,
    frame := 0, animTimer := 0, onLadder := false, rolling := true }

/-- The reduced variant's hammer spot is absent or already consumed
(`hammer === null` or `hammer.active === false`). -/
def aHammerGone (w : Atari.AWorld) : Prop :=
  ∀ h, w.hammer = some h → h.active = false

/-- The world of the re-pickup trace with Mario parked on the hammer spot
and the given power-up state. -/
def c9W (b : Bool) (t : ℕ) : DK.World :=
  { c9w0 with marioHasHammer := b, hammerTimer := t }

/-- A consumed hammer spot of the reduced variant. -/
def c9aobj : Atari.AObj :=
  { x := 120, y := 160, width := 16, height := 16, active := false }

/-- A reduced-variant world whose hammer spot is already consumed. -/
def c9aw : Atari.AWorld := { aw0 with hammer := some c9aobj }

/-- A reduced-variant barrel overlapping Mario's spawn rectangle. -/
def c1abarrel : Atari.ABarrel :=
  { x := 55, y := 200, width := 16, height := 16, active := true,
    direction := 1, speed := 1, onLadder := false }

/-- A reduced-variant fireball overlapping Mario's spawn rectangle. -/
def c1afire : Atari.AFireball :=
  { x := 55, y := 200, width := 12, height := 12, active := true,
    direction := 1, speed := 1, climbing := false }

/-! Helper lemmas: fields left untouched by the per-tick subsystem
updates. -/

theorem checkWin_keeps (w : DK.World) :
    (DK.checkWinCondition w).currentLevel = w.currentLevel ∧
    (DK.checkWinCondition w).marioHasHammer = w.marioHasHammer ∧
    (DK.checkWinCondition w).hammerTimer = w.hammerTimer ∧
    (DK.checkWinCondition w).lives = w.lives ∧
    (DK.checkWinCondition w).barrels = w.barrels ∧
    (DK.checkWinCondition w).fireballs = w.fireballs ∧
    (DK.checkWinCondition w).mario = w.mario ∧
    (DK.checkWinCondition w).rivets = w.rivets ∧
    (DK.checkWinCondition w).elevators = w.elevators ∧
    (DK.checkWinCondition w).gameTime = w.gameTime ∧
    (DK.checkWinCondition w).bonusTimer = w.bonusTimer := by
  unfold DK.checkWinCondition
  split <;> split_ifs <;> simp

theorem deathCheck_keeps (w : DK.World) :
    (DK.deathCheck w).currentLevel = w.currentLevel ∧
    (DK.deathCheck w).marioHasHammer = w.marioHasHammer ∧
    (DK.deathCheck w).hammerTimer = w.hammerTimer ∧
    (DK.deathCheck w).lives = w.lives ∧
    (DK.deathCheck w).barrels = w.barrels ∧
    (DK.deathCheck w).fireballs = w.fireballs ∧
    (DK.deathCheck w).mario = w.mario ∧
    (DK.deathCheck w).rivets = w.rivets ∧
    (DK.deathCheck w).elevators = w.elevators ∧
    (DK.deathCheck w).gameTime = w.gameTime ∧
    (DK.deathCheck w).bonusTimer = w.bonusTimer := by
  unfold DK.deathCheck; split_ifs <;> simp

theorem hammerGrant_keeps (fires : Bool) (w : DK.World) :
    (DK.hammerGrant fires w).currentLevel = w.currentLevel ∧
    (DK.hammerGrant fires w).lives = w.lives ∧
    (DK.hammerGrant fires w).barrels = w.barrels ∧
    (DK.hammerGrant fires w).fireballs = w.fireballs ∧
    (DK.hammerGrant fires w).mario = w.mario ∧
    (DK.hammerGrant fires w).rivets = w.rivets ∧
    (DK.hammerGrant fires w).elevators = w.elevators ∧
    (DK.hammerGrant fires w).gameState = w.gameState ∧
    (DK.hammerGrant fires w).gameTime = w.gameTime ∧
    (DK.hammerGrant fires w).bonusTimer = w.bonusTimer := by
  unfold DK.hammerGrant; split_ifs <;> simp

theorem hammerCountdown_keeps (hadHammer : Bool) (w : DK.World) :
    (DK.hammerCountdown hadHammer w).currentLevel = w.currentLevel ∧
    (DK.hammerCountdown hadHammer w).lives = w.lives ∧
    (DK.hammerCountdown hadHammer w).barrels = w.barrels ∧
    (DK.hammerCountdown hadHammer w).fireballs = w.fireballs ∧
    (DK.hammerCountdown hadHammer w).mario = w.mario ∧
    (DK.hammerCountdown hadHammer w).rivets = w.rivets ∧
    (DK.hammerCountdown hadHammer w).elevators = w.elevators ∧
    (DK.hammerCountdown hadHammer w).gameState = w.gameState ∧
    (DK.hammerCountdown hadHammer w).gameTime = w.gameTime ∧
    (DK.hammerCountdown hadHammer w).bonusTimer = w.bonusTimer := by
  unfold DK.hammerCountdown; split_ifs <;> simp

theorem updateMario_keeps (i : DK.Input) (w : DK.World) :
    (DK.updateMario i w).currentLevel = w.currentLevel ∧
    (DK.updateMario i w).lives = w.lives ∧
    (DK.updateMario i w).barrels = w.barrels ∧
    (DK.updateMario i w).fireballs = w.fireballs ∧
    (DK.updateMario i w).rivets = w.rivets ∧
    (DK.updateMario i w).elevators = w.elevators ∧
    (DK.updateMario i w).gameTime = w.gameTime ∧
    (DK.updateMario i w).bonusTimer = w.bonusTimer := by
  unfold DK.updateMario
  set w1 : DK.World :=
    { w with mario := DK.marioPhysics i w.currentLevel w.elevators w.mario } with hw1
  have hd := deathCheck_keeps w1
  have hg := hammerGrant_keeps (decide (DK.hammerPickupFires i w)) (DK.deathCheck w1)
  have hc := hammerCountdown_keeps w.marioHasHammer
    (DK.hammerGrant (decide (DK.hammerPickupFires i w)) (DK.deathCheck w1))
  have hk := checkWin_keeps
    (DK.hammerCountdown w.marioHasHammer
      (DK.hammerGrant (decide (DK.hammerPickupFires i w)) (DK.deathCheck w1)))
  refine ⟨?_, ?_, ?_, ?_, ?_, ?_, ?_, ?_⟩ <;>
    simp_all only [hw1] <;> rfl

theorem updateBarrels_keeps (hammer : Bool) (r : ℕ → Bool) (w : DK.World) :
    (DK.updateBarrels hammer r w).currentLevel = w.currentLevel ∧
    (DK.updateBarrels hammer r w).lives = w.lives ∧
    (DK.updateBarrels hammer r w).fireballs = w.fireballs ∧
    (DK.updateBarrels hammer r w).rivets = w.rivets ∧
    (DK.updateBarrels hammer r w).elevators = w.elevators ∧
    (DK.updateBarrels hammer r w).mario = w.mario ∧
    (DK.updateBarrels hammer r w).gameTime = w.gameTime ∧
    (DK.updateBarrels hammer r w).bonusTimer = w.bonusTimer := by
  unfold DK.updateBarrels; simp

theorem updateFireballs_keeps (r : DK.Rand) (w : DK.World) :
    (DK.updateFireballs r w).currentLevel = w.currentLevel ∧
    (DK.updateFireballs r w).lives = w.lives ∧
    (DK.updateFireballs r w).barrels = w.barrels ∧
    (DK.updateFireballs r w).rivets = w.rivets ∧
    (DK.updateFireballs r w).elevators = w.elevators ∧
    (DK.updateFireballs r w).mario = w.mario ∧
    (DK.updateFireballs r w).score = w.score ∧
    (DK.updateFireballs r w).gameTime = w.gameTime ∧
    (DK.updateFireballs r w).bonusTimer = w.bonusTimer := by
  unfold DK.updateFireballs; simp

theorem updateElevators_keeps (w : DK.World) :
    (DK.updateElevators w).currentLevel = w.currentLevel ∧
    (DK.updateElevators w).lives = w.lives ∧
    (DK.updateElevators w).barrels = w.barrels ∧
    (DK.updateElevators w).fireballs = w.fireballs ∧
    (DK.updateElevators w).rivets = w.rivets ∧
    (DK.updateElevators w).gameState = w.gameState ∧
    (DK.updateElevators w).score = w.score ∧
    (DK.updateElevators w).gameTime = w.gameTime ∧
    (DK.updateElevators w).bonusTimer = w.bonusTimer := by
  unfold DK.updateElevators; split_ifs <;> simp

theorem updateRivets_keeps (w : DK.World) :
    (DK.updateRivets w).currentLevel = w.currentLevel ∧
    (DK.updateRivets w).lives = w.lives ∧
    (DK.updateRivets w).barrels = w.barrels ∧
    (DK.updateRivets w).fireballs = w.fireballs ∧
    (DK.updateRivets w).elevators = w.elevators ∧
    (DK.updateRivets w).gameState = w.gameState ∧
    (DK.updateRivets w).gameTime = w.gameTime ∧
    (DK.updateRivets w).bonusTimer = w.bonusTimer := by
  unfold DK.updateRivets; split_ifs <;> simp

theorem updateBonus_keeps (w : DK.World) :
    (DK.updateBonus w).currentLevel = w.currentLevel ∧
    (DK.updateBonus w).lives = w.lives ∧
    (DK.updateBonus w).barrels = w.barrels ∧
    (DK.updateBonus w).fireballs = w.fireballs ∧
    (DK.updateBonus w).rivets = w.rivets ∧
    (DK.updateBonus w).elevators = w.elevators ∧
    (DK.updateBonus w).gameState = w.gameState ∧
    (DK.updateBonus w).score = w.score ∧
    (DK.updateBonus w).gameTime = w.gameTime := by
  unfold DK.updateBonus; split_ifs <;> simp

theorem processRivets_length (m : DK.Sprite) :
    ∀ rs : List DK.Rivet, (DK.processRivets m rs).1.length = rs.length := by
  intro rs
  induction rs with
  | nil => rfl
  | cons r rs ih => simp [DK.processRivets, ih]

/-- C10: a tick taken outside the Playing phase leaves the whole simulation
world unchanged — avatar, barrels, fireballs, rivets, elevators, score,
bonus, lives, power-up state — advancing only the global tick counter (the
full variant), and in the reduced variant the tick is a complete no-op. -/
theorem c10_nonplaying_frozen :
    (∀ (i : DK.Input) (r : DK.Rand) (w : DK.World),
      w.gameState ≠ DK.GameState.PLAYING →
      (DK.gameLoop i r w).mario = w.mario ∧
      (DK.gameLoop i r w).barrels = w.barrels ∧
      (DK.gameLoop i r w).fireballs = w.fireballs ∧
      (DK.gameLoop i r w).rivets = w.rivets ∧
      (DK.gameLoop i r w).elevators = w.elevators ∧
      (DK.gameLoop i r w).score = w.score ∧
      (DK.gameLoop i r w).bonus = w.bonus ∧
      (DK.gameLoop i r w).lives = w.lives ∧
      (DK.gameLoop i r w).marioHasHammer = w.marioHasHammer ∧
      (DK.gameLoop i r w).hammerTimer = w.hammerTimer ∧
      (DK.gameLoop i r w).gameState = w.gameState ∧
      (DK.gameLoop i r w).gameTime = w.gameTime + 1) ∧
    (∀ (i : DK.Input) (r : Atari.ARand) (aw : Atari.AWorld),
      aw.gameState ≠ Atari.AGameState.playing →
      Atari.atariTick i r aw = aw) := by
  constructor
  · intro i r w h
    simp [DK.gameLoop, h]
  · intro i r aw h
    simp [Atari.atariTick, h]

/-- Witness for C10 at a title-screen world of the full variant and a
game-over world of the reduced variant. -/
theorem c10_nonplaying_frozen_witness :
    (DK.gameLoop DK.input0 rand0 c10w).score = c10w.score ∧
    (DK.gameLoop DK.input0 rand0 c10w).gameTime = c10w.gameTime + 1 ∧
    Atari.atariTick DK.input0 arand0 c10aw = c10aw := by
  have h := c10_nonplaying_frozen
  have h1 := h.1 DK.input0 rand0 c10w (by with_unfolding_all decide)
  have h2 := h.2 DK.input0 arand0 c10aw (by with_unfolding_all decide)
  exact ⟨h1.2.2.2.2.2.1, h1.2.2.2.2.2.2.2.2.2.2.2, h2⟩

/-- C8: on the Girders, Elevators and Conveyors levels, whenever Mario's
position satisfies `y ≤ 48` and `56 ≤ x ≤ 168` at the win-condition check
of a tick, the phase becomes level-complete and the current bonus is added
to the score. -/
theorem c8_goal_rect (w : DK.World)
    (h1 : w.currentLevel = DK.LevelType.GIRDERS ∨
          w.currentLevel = DK.LevelType.ELEVATOR ∨
          w.currentLevel = DK.LevelType.CONVEYOR)
    (h2 : w.mario.y ≤ 48) (h3 : 56 ≤ w.mario.x) (h4 : w.mario.x ≤ 168) :
    (DK.checkWinCondition w).gameState = DK.GameState.LEVEL_COMPLETE ∧
    (DK.checkWinCondition w).score = w.score + w.bonus := by
  unfold DK.checkWinCondition
  rcases h1 with h1 | h1 | h1 <;> rw [h1] <;> split_ifs with hc <;>
    first
      | exact ⟨rfl, rfl⟩
      | exact absurd ⟨h2, h3, h4⟩ hc

/-- Witness for C8: Mario at `(100, 40)` on the girders level. -/
theorem c8_goal_rect_witness :
    (DK.checkWinCondition c8w).gameState = DK.GameState.LEVEL_COMPLETE ∧
    (DK.checkWinCondition c8w).score = c8w.score + c8w.bonus :=
  c8_goal_rect c8w (Or.inl (by with_unfolding_all decide))
    (by with_unfolding_all decide) (by with_unfolding_all decide)
    (by with_unfolding_all decide)

/-- C7: on the rivet level, a playing-phase win-condition check moves the
machine into the interlude (post-win) phase exactly when every rivet is
removed, awarding the bonus; the level seeds six unremoved rivets and the
rivet update never changes their number. -/
theorem c7_rivet_win (w : DK.World)
    (h1 : w.currentLevel = DK.LevelType.RIVET)
    (h2 : w.gameState = DK.GameState.PLAYING) :
    ((DK.checkWinCondition w).gameState = DK.GameState.INTERLUDE ↔
      w.rivets.all (fun r => r.removed) = true) ∧
    (w.rivets.all (fun r => r.removed) = true →
      (DK.checkWinCondition w).score = w.score + w.bonus) ∧
    ((DK.initializeLevel w).rivets.length = 6 ∧
      (DK.initializeLevel w).rivets.all (fun r => !r.removed) = true) ∧
    (∀ w2 : DK.World, (DK.updateRivets w2).rivets.length = w2.rivets.length) := by
  have hrw : DK.checkWinCondition w =
      if w.rivets.all (fun r => r.removed) then
        { w with gameState := DK.GameState.INTERLUDE, score := w.score + w.bonus }
      else w := by
    unfold DK.checkWinCondition; rw [h1]
  refine ⟨?_, ?_, ?_, ?_⟩
  · rw [hrw]
    split_ifs with h
    · exact iff_of_true rfl h
    · refine iff_of_false ?_ h
      rw [h2]
      exact fun hx => DK.GameState.noConfusion hx
  · intro h
    rw [hrw, if_pos h]
  · have hr : (DK.initializeLevel w).rivets = DK.initRivets := by
      unfold DK.initializeLevel; rw [h1]; simp
    rw [hr]
    exact ⟨rfl, rfl⟩
  · intro w2
    unfold DK.updateRivets
    split_ifs <;> simp [processRivets_length]

/-- Witness for C7 at a rivet world with all six rivets removed. -/
theorem c7_rivet_win_witness :
    (DK.checkWinCondition c7w).gameState = DK.GameState.INTERLUDE := by
  have h := c7_rivet_win c7w (by with_unfolding_all decide) (by with_unfolding_all decide)
  exact h.1.mpr (by with_unfolding_all decide)

/-- C5: Mario's landing resolution runs only while falling (`vy > 0`);
when it finds the first platform whose horizontal span overlaps Mario and
whose top edge lies within the downward tolerance band of his foot, the
foot is snapped exactly onto the platform top (`y = p.y − MARIO_HEIGHT`)
and `vy` is zeroed, so after resolution Mario is never lower on screen
than the top of the platform he lands on (stated away from the elevator
level, whose additional elevator ride-along the spec treats separately). -/
theorem c5_platform_snap :
    (∀ (lvl : DK.LevelType) (elevs : List DK.Elevator) (plats : List DK.Rect)
       (m : DK.Sprite), m.vy ≤ 0 → DK.marioLand lvl elevs plats m = m) ∧
    (∀ (lvl : DK.LevelType) (elevs : List DK.Elevator) (plats : List DK.Rect)
       (m : DK.Sprite) (p : DK.Rect),
      lvl ≠ DK.LevelType.ELEVATOR → 0 < m.vy →
      plats.find? (DK.marioPlatHit m) = some p →
      (DK.marioLand lvl elevs plats m).y = p.y - DK.MARIO_HEIGHT ∧
      (DK.marioLand lvl elevs plats m).vy = 0 ∧
      (DK.marioLand lvl elevs plats m).y + DK.MARIO_HEIGHT ≤ p.y) := by
  constructor
  · intro lvl elevs plats m h
    unfold DK.marioLand
    rw [if_neg (not_lt.mpr h)]
  · intro lvl elevs plats m p hlvl hvy hfind
    unfold DK.marioLand DK.resolvePlatforms
    rw [if_pos hvy, hfind, if_neg hlvl]
    refine ⟨rfl, rfl, ?_⟩
    simp [DK.MARIO_HEIGHT]

/-- Witness for C5: Mario falling at `(24, 217)` with `vy = 1` lands on
the bottom girder platform, foot flush with its top edge `y = 232`. -/
theorem c5_platform_snap_witness :
    (DK.marioLand DK.LevelType.GIRDERS [] DK.girderPlatforms c5mario).y =
      (232 : ℚ) - DK.MARIO_HEIGHT ∧
    (DK.marioLand DK.LevelType.GIRDERS [] DK.girderPlatforms c5mario).vy = 0 := by
  have h := c5_platform_snap.2 DK.LevelType.GIRDERS [] DK.girderPlatforms c5mario
    ⟨8, 232, 208, 8⟩ (by with_unfolding_all decide) (by with_unfolding_all decide)
    (by with_unfolding_all decide)
  exact ⟨h.1, h.2.1⟩

/-! Helper lemmas for the lives, bonus and spawn-cap claims. -/

theorem gameLoop_lives (i : DK.Input) (r : DK.Rand) (w : DK.World) :
    (DK.gameLoop i r w).lives = w.lives := by
  unfold DK.gameLoop
  split_ifs with h
  · rw [(updateBonus_keeps _).2.1, (updateRivets_keeps _).2.1,
       (updateElevators_keeps _).2.1, (updateFireballs_keeps _ _).2.1,
       (updateBarrels_keeps _ _ _).2.1, (updateMario_keeps _ _).2.1]
  · rfl

theorem updateBonus_small (w : DK.World) (h : w.bonusTimer + 1 < 60) :
    (DK.updateBonus w).bonus = w.bonus ∧
    (DK.updateBonus w).bonusTimer = w.bonusTimer + 1 := by
  unfold DK.updateBonus
  rw [if_neg (by omega)]
  exact ⟨rfl, rfl⟩

theorem updateBonus_fire (w : DK.World) (h : 60 ≤ w.bonusTimer + 1) :
    (DK.updateBonus w).bonus = max 0 (w.bonus - 100) ∧
    (DK.updateBonus w).bonusTimer = 0 := by
  unfold DK.updateBonus
  rw [if_pos (by omega)]
  exact ⟨rfl, rfl⟩

theorem updateBonus_iter_aux :
    ∀ (j : ℕ) (w : DK.World), w.bonusTimer + j ≤ 59 →
      ((DK.updateBonus)^[j] w).bonus = w.bonus ∧
      ((DK.updateBonus)^[j] w).bonusTimer = w.bonusTimer + j := by
  intro j
  induction j with
  | zero => intro w _; simp
  | succ j ih =>
      intro w h
      rw [Function.iterate_succ_apply]
      have hs := updateBonus_small w (by omega)
      have hih := ih (DK.updateBonus w) (by omega)
      refine ⟨by rw [hih.1, hs.1], ?_⟩
      rw [hih.2, hs.2]
      omega

theorem processBarrels_length (hammer : Bool) (plats lads : List DK.Rect)
    (m : DK.Sprite) (r : ℕ → Bool) :
    ∀ (bs : List DK.Barrel) (i : ℕ),
      (DK.processBarrels hammer plats lads m r i bs).1.length ≤ bs.length := by
  intro bs
  induction bs with
  | nil => intro i; simp [DK.processBarrels]
  | cons b bs ih =>
      intro i
      have h1 : (DK.updateBarrel hammer plats lads m (r i) b).1.toList.length ≤ 1 := by
        cases (DK.updateBarrel hammer plats lads m (r i) b).1 <;> simp
      have h2 := ih (i + 1)
      simp only [DK.processBarrels, List.length_append, List.length_cons]
      omega

theorem processFireballs_length (plats : List DK.Rect) (m : DK.Sprite) :
    ∀ fs : List DK.Fireball,
      (DK.processFireballs plats m fs).1.length ≤ fs.length := by
  intro fs
  induction fs with
  | nil => simp [DK.processFireballs]
  | cons f fs ih =>
      have h1 : (DK.updateFireball plats m f).1.toList.length ≤ 1 := by
        cases (DK.updateFireball plats m f).1 <;> simp
      simp only [DK.processFireballs, List.length_append, List.length_cons]
      omega

theorem updateBarrels_cap (hammer : Bool) (r : ℕ → Bool) (w : DK.World)
    (h : w.barrels.length ≤ 4) :
    (DK.updateBarrels hammer r w).barrels.length ≤ 4 := by
  have hs : (DK.spawnBarrels w).length ≤ 4 := by
    unfold DK.spawnBarrels
    split_ifs with hc
    · have := hc.2.2
      simp only [List.length_append, List.length_cons, List.length_nil]
      omega
    · exact h
  have hp := processBarrels_length hammer (DK.platformsFor w.currentLevel)
    (DK.laddersFor w.currentLevel) w.mario r (DK.spawnBarrels w) 0
  unfold DK.updateBarrels
  simp only []
  omega

theorem updateFireballs_cap (r : DK.Rand) (w : DK.World)
    (h : w.fireballs.length ≤ 2) :
    (DK.updateFireballs r w).fireballs.length ≤ 2 := by
  have hs : (DK.spawnFireballs r.fvx r.fdir w).length ≤ 2 := by
    unfold DK.spawnFireballs
    split_ifs with hc
    · have := hc.2.2
      simp only [List.length_append, List.length_cons, List.length_nil]
      omega
    · exact h
  have hp := processFireballs_length (DK.platformsFor w.currentLevel) w.mario
    (DK.spawnFireballs r.fvx r.fdir w)
  unfold DK.updateFireballs
  simp only []
  omega

/-- C2: the claim that lives reach zero exactly once before game-over
fails on the full variant: three acknowledged deaths from a fresh
three-life game do reach the game-over phase, but the lives counter stops
at 1 — it is never decremented to 0 (the third acknowledgment branches to
game-over without consuming the last life). -/
theorem c2_lives_counterexample :
    c2d1.lives = 2 ∧ c2d1.gameState = DK.GameState.PLAYING ∧
    c2d2.lives = 1 ∧ c2d2.gameState = DK.GameState.PLAYING ∧
    c2d3.lives = 1 ∧ c2d3.gameState = DK.GameState.GAME_OVER := by
  with_unfolding_all decide

/-- C2 (amended): starting from three lives, three deaths without
completing a level always end in the game-over phase in both variants;
playing-phase ticks never change the lives counter.  In the reduced
variant each death decrements lives, so the counter reaches 0 exactly at
the transition to game-over; in the full variant the decrement happens
only while more than one life remains, so the counter stops at 1 and never
reaches 0. -/
theorem c2_lives_amended :
    (∀ w : DK.World, 1 < w.lives →
      (DK.deathAcknowledge w).lives = w.lives - 1 ∧
      (DK.deathAcknowledge w).gameState = DK.GameState.PLAYING) ∧
    (∀ w : DK.World, ¬(1 < w.lives) →
      (DK.deathAcknowledge w).lives = w.lives ∧
      (DK.deathAcknowledge w).gameState = DK.GameState.GAME_OVER) ∧
    (∀ (i : DK.Input) (r : DK.Rand) (w : DK.World),
      (DK.gameLoop i r w).lives = w.lives) ∧
    (∀ w : Atari.AWorld, (Atari.loseLifeA w).lives = w.lives - 1) ∧
    (∀ w : Atari.AWorld, w.lives = 1 →
      (Atari.loseLifeA w).lives = 0 ∧
      (Atari.loseLifeA w).gameState = Atari.AGameState.gameOver) ∧
    (∀ w : Atari.AWorld, 1 < w.lives →
      (Atari.loseLifeA w).gameState = w.gameState ∧
      (Atari.loseLifeA w).lives = w.lives - 1) := by
  refine ⟨?_, ?_, gameLoop_lives, ?_, ?_, ?_⟩
  · intro w h
    unfold DK.deathAcknowledge
    rw [if_pos h]
    exact ⟨rfl, rfl⟩
  · intro w h
    unfold DK.deathAcknowledge
    rw [if_neg h]
    exact ⟨rfl, rfl⟩
  · intro w
    simp only [Atari.loseLifeA]
    split_ifs <;> rfl
  · intro w h
    simp only [Atari.loseLifeA]
    rw [if_pos (by omega : w.lives - 1 ≤ 0)]
    exact ⟨by simp [h], rfl⟩
  · intro w h
    simp only [Atari.loseLifeA]
    rw [if_neg (by omega : ¬(w.lives - 1 ≤ 0))]
    exact ⟨rfl, rfl⟩

/-- Witness for C2 (amended) at a fresh three-life world of each variant. -/
theorem c2_lives_amended_witness :
    (DK.deathAcknowledge c9w0).lives = c9w0.lives - 1 ∧
    (DK.gameLoop DK.input0 rand0 c9w0).lives = c9w0.lives ∧
    (Atari.loseLifeA { aw0 with lives := 1 }).gameState = Atari.AGameState.gameOver ∧
    (Atari.loseLifeA aw0).lives = aw0.lives - 1 := by
  have h := c2_lives_amended
  exact ⟨(h.1 c9w0 (by with_unfolding_all decide)).1,
         h.2.2.1 DK.input0 rand0 c9w0,
         (h.2.2.2.2.1 { aw0 with lives := 1 } (by with_unfolding_all decide)).2,
         h.2.2.2.1 aw0⟩

/-- C4 counterexample: in the reduced variant's cited game loop the bonus
falls by 1 on every playing tick, not by 100 once per 60 ticks: one tick
from a fresh world leaves 4999, which matches neither an unchanged bonus
(5000) nor a 100-point drop (4900). -/
theorem c4_bonus_counterexample :
    (Atari.atariTick DK.input0 arand0 aw0).bonus = 4999 ∧
    ¬((4999 : ℤ) = 5000 ∨ (4999 : ℤ) = 4900) := by
  with_unfolding_all decide

/-- C4 (amended): the bonus update is non-increasing and keeps the bonus
non-negative in both variants, and once 0 the full variant's bonus stays
0 until re-initialization.  The full variant decreases the bonus by 100
exactly once every 60 ticks (floored at 0): off the 60-tick boundary the
bonus is unchanged, on it the bonus drops by 100, and 60 iterations from
a reset timer perform exactly one such drop.  The reduced variant instead
decreases the bonus by 1 every playing tick, floored at 0. -/
theorem c4_bonus_amended :
    (∀ w : DK.World, 0 ≤ w.bonus →
      (DK.updateBonus w).bonus ≤ w.bonus ∧ 0 ≤ (DK.updateBonus w).bonus) ∧
    (∀ w : DK.World, w.bonusTimer + 1 < 60 →
      (DK.updateBonus w).bonus = w.bonus ∧
      (DK.updateBonus w).bonusTimer = w.bonusTimer + 1) ∧
    (∀ w : DK.World, 60 ≤ w.bonusTimer + 1 →
      (DK.updateBonus w).bonus = max 0 (w.bonus - 100) ∧
      (DK.updateBonus w).bonusTimer = 0) ∧
    (∀ w : DK.World, w.bonus = 0 → (DK.updateBonus w).bonus = 0) ∧
    (∀ w : DK.World, w.bonusTimer = 0 →
      ((DK.updateBonus)^[60] w).bonus = max 0 (w.bonus - 100) ∧
      ((DK.updateBonus)^[60] w).bonusTimer = 0) ∧
    (∀ b : ℤ, 0 ≤ b →
      Atari.atariBonusStep b ≤ b ∧ 0 ≤ Atari.atariBonusStep b) := by
  refine ⟨?_, updateBonus_small, updateBonus_fire, ?_, ?_, ?_⟩
  · intro w h
    unfold DK.updateBonus
    split_ifs <;> constructor <;> simp <;> omega
  · intro w h
    unfold DK.updateBonus
    split_ifs <;> simp [h]
  · intro w h
    have h59 := updateBonus_iter_aux 59 w (by omega)
    have hstep : (DK.updateBonus)^[60] w =
        DK.updateBonus ((DK.updateBonus)^[59] w) :=
      Function.iterate_succ_apply' _ _ _
    have hf := updateBonus_fire ((DK.updateBonus)^[59] w) (by omega)
    rw [hstep]
    exact ⟨by rw [hf.1, h59.1], hf.2⟩
  · intro b h
    unfold Atari.atariBonusStep
    constructor <;> omega

/-- Witness for C4 (amended) at a fresh full-variant world and bonus 5000. -/
theorem c4_bonus_amended_witness :
    (DK.updateBonus c9w0).bonus ≤ c9w0.bonus ∧
    ((DK.updateBonus)^[60] c9w0).bonus = max 0 (c9w0.bonus - 100) ∧
    Atari.atariBonusStep 5000 ≤ 5000 := by
  have h := c4_bonus_amended
  exact ⟨(h.1 c9w0 (by with_unfolding_all decide)).1,
         (h.2.2.2.2.1 c9w0 (by with_unfolding_all decide)).1,
         (h.2.2.2.2.2 5000 (by with_unfolding_all decide)).1⟩

/-- C6: in the full variant a barrel is spawned at the fixed anchor
exactly when the level is Girders, the tick counter is a multiple of 120
and fewer than 4 barrels are live; a fireball is spawned at its anchor
exactly when the level is Rivets, the tick counter is a multiple of 180
and fewer than 2 fireballs are live; consequently the live-barrel count
never exceeds 4 and the live-fireball count never exceeds 2, both at the
subsystem updates and across a whole game-loop tick. -/
theorem c6_spawn_policy :
    (∀ w : DK.World, DK.barrelSpawnCond w →
      DK.spawnBarrels w = w.barrels ++ [DK.newBarrel]) ∧
    (∀ w : DK.World, ¬DK.barrelSpawnCond w → DK.spawnBarrels w = w.barrels) ∧
    (∀ w : DK.World,
      (DK.spawnBarrels w).length = w.barrels.length + 1 ↔ DK.barrelSpawnCond w) ∧
    (∀ (w : DK.World) (rvx rdir : Bool), DK.fireballSpawnCond w →
      DK.spawnFireballs rvx rdir w = w.fireballs ++ [DK.newFireball rvx rdir]) ∧
    (∀ (w : DK.World) (rvx rdir : Bool), ¬DK.fireballSpawnCond w →
      DK.spawnFireballs rvx rdir w = w.fireballs) ∧
    (∀ (w : DK.World) (rvx rdir : Bool),
      (DK.spawnFireballs rvx rdir w).length = w.fireballs.length + 1 ↔
        DK.fireballSpawnCond w) ∧
    (∀ (hammer : Bool) (r : ℕ → Bool) (w : DK.World), w.barrels.length ≤ 4 →
      (DK.updateBarrels hammer r w).barrels.length ≤ 4) ∧
    (∀ (r : DK.Rand) (w : DK.World), w.fireballs.length ≤ 2 →
      (DK.updateFireballs r w).fireballs.length ≤ 2) ∧
    (∀ (i : DK.Input) (r : DK.Rand) (w : DK.World), w.barrels.length ≤ 4 →
      (DK.gameLoop i r w).barrels.length ≤ 4) ∧
    (∀ (i : DK.Input) (r : DK.Rand) (w : DK.World), w.fireballs.length ≤ 2 →
      (DK.gameLoop i r w).fireballs.length ≤ 2) := by
  refine ⟨?_, ?_, ?_, ?_, ?_, ?_, updateBarrels_cap, updateFireballs_cap, ?_, ?_⟩
  · intro w h; unfold DK.spawnBarrels; rw [if_pos h]
  · intro w h; unfold DK.spawnBarrels; rw [if_neg h]
  · intro w
    unfold DK.spawnBarrels
    split_ifs with h
    · simp [h]
    · simp [h]
  · intro w rvx rdir h; unfold DK.spawnFireballs; rw [if_pos h]
  · intro w rvx rdir h; unfold DK.spawnFireballs; rw [if_neg h]
  · intro w rvx rdir
    unfold DK.spawnFireballs
    split_ifs with h
    · simp [h]
    · simp [h]
  · intro i r w h
    unfold DK.gameLoop
    split_ifs with hp
    · rw [(updateBonus_keeps _).2.2.1, (updateRivets_keeps _).2.2.1,
         (updateElevators_keeps _).2.2.1, (updateFireballs_keeps _ _).2.2.1]
      apply updateBarrels_cap
      rw [(updateMario_keeps _ _).2.2.1]
      exact h
    · exact h
  · intro i r w h
    unfold DK.gameLoop
    split_ifs with hp
    · rw [(updateBonus_keeps _).2.2.2.1, (updateRivets_keeps _).2.2.2.1,
         (updateElevators_keeps _).2.2.2.1]
      apply updateFireballs_cap
      rw [(updateBarrels_keeps _ _ _).2.2.1, (updateMario_keeps _ _).2.2.2.1]
      exact h
    · exact h

/-- Witness for C6 at a girders world on a spawn tick with no live
hazards. -/
theorem c6_spawn_policy_witness :
    DK.spawnBarrels c6w = c6w.barrels ++ [DK.newBarrel] ∧
    (DK.updateBarrels false (fun _ => false) c6w).barrels.length ≤ 4 ∧
    (DK.gameLoop DK.input0 rand0 c6w).barrels.length ≤ 4 ∧
    (DK.updateFireballs rand0 c6w).fireballs.length ≤ 2 ∧
    DK.spawnFireballs false false c6w = c6w.fireballs := by
  have h := c6_spawn_policy
  exact ⟨h.1 c6w (by with_unfolding_all decide),
         h.2.2.2.2.2.2.1 false (fun _ => false) c6w (by with_unfolding_all decide),
         h.2.2.2.2.2.2.2.2.1 DK.input0 rand0 c6w (by with_unfolding_all decide),
         h.2.2.2.2.2.2.2.1 rand0 c6w (by with_unfolding_all decide),
         h.2.2.2.2.1 c6w false false (by with_unfolding_all decide)⟩

/-! Helper lemmas for the power-up duration and hammer-consumption
claims. -/

theorem hammerGrant_skip (w : DK.World) :
    DK.hammerGrant false w = w := by
  unfold DK.hammerGrant
  simp

theorem hammerGrant_fields (fires : Bool) (w : DK.World) :
    (DK.hammerGrant fires w).marioHasHammer = (fires || w.marioHasHammer) ∧
    (DK.hammerGrant fires w).hammerTimer =
      (if fires then 300 else w.hammerTimer) := by
  unfold DK.hammerGrant
  cases fires <;> simp

theorem hammerCountdown_fields (had : Bool) (w : DK.World) :
    (DK.hammerCountdown had w).marioHasHammer =
      (if had && decide (w.hammerTimer ≤ 1) then false else w.marioHasHammer) ∧
    (DK.hammerCountdown had w).hammerTimer =
      (if had then w.hammerTimer - 1 else w.hammerTimer) := by
  unfold DK.hammerCountdown
  cases had <;> split_ifs <;> simp_all <;> omega

theorem updateMario_hammer_held (i : DK.Input) (w : DK.World)
    (h : w.marioHasHammer = true) :
    (DK.updateMario i w).marioHasHammer = decide (1 < w.hammerTimer) ∧
    (DK.updateMario i w).hammerTimer = w.hammerTimer - 1 := by
  have hnp : ¬ DK.hammerPickupFires i w := by
    intro hpf
    have hflag : w.marioHasHammer = false := hpf.2.1
    rw [h] at hflag
    exact Bool.noConfusion hflag
  unfold DK.updateMario
  rw [decide_eq_false hnp, hammerGrant_skip]
  constructor
  · rw [(checkWin_keeps _).2.1, (hammerCountdown_fields _ _).1,
       (deathCheck_keeps _).2.2.1, (deathCheck_keeps _).2.1]
    by_cases hT : w.hammerTimer ≤ 1 <;>
      simp [h, hT] <;> omega
  · rw [(checkWin_keeps _).2.2.1, (hammerCountdown_fields _ _).2,
       (deathCheck_keeps _).2.2.1]
    simp [h]

theorem updateMario_hammer_free (i : DK.Input) (w : DK.World)
    (h : w.marioHasHammer = false) (hnp : ¬ DK.hammerPickupFires i w) :
    (DK.updateMario i w).marioHasHammer = false ∧
    (DK.updateMario i w).hammerTimer = w.hammerTimer := by
  unfold DK.updateMario
  rw [decide_eq_false hnp, hammerGrant_skip]
  constructor
  · rw [(checkWin_keeps _).2.1, (hammerCountdown_fields _ _).1,
       (deathCheck_keeps _).2.1]
    simp [h]
  · rw [(checkWin_keeps _).2.2.1, (hammerCountdown_fields _ _).2,
       (deathCheck_keeps _).2.2.1]
    simp [h]

theorem hammerTrace_level (ins : ℕ → DK.Input) (w0 : DK.World) :
    ∀ k, (hammerTrace ins w0 k).currentLevel = w0.currentLevel := by
  intro k
  induction k with
  | zero => rfl
  | succ k ih =>
      show (DK.updateMario (ins k) (hammerTrace ins w0 k)).currentLevel = _
      rw [(updateMario_keeps _ _).1]
      exact ih

/-- C3: after a hammer pickup (flag set, countdown at 300), and provided
no further pickup fires, the power-up flag stays true for exactly the 300
ticks `T, …, T+299`, is false from tick `T+300` onward, and the countdown
falls by exactly one per tick while held, clearing the flag as it reaches
zero. -/
theorem c3_powerup_duration (ins : ℕ → DK.Input) (w0 : DK.World)
    (h1 : w0.marioHasHammer = true) (h2 : w0.hammerTimer = 300)
    (hp : ∀ k, ¬ DK.hammerPickupFires (ins k) (hammerTrace ins w0 k)) :
    ∀ k, ((hammerTrace ins w0 k).marioHasHammer = decide (k < 300)) ∧
         (hammerTrace ins w0 k).hammerTimer = 300 - k := by
  intro k
  induction k with
  | zero =>
      refine ⟨?_, by simpa using h2⟩
      show w0.marioHasHammer = decide (0 < 300)
      rw [h1]
      simp
  | succ k ih =>
      obtain ⟨ihf, iht⟩ := ih
      by_cases hk : k < 300
      · have hflag : (hammerTrace ins w0 k).marioHasHammer = true := by
          rw [ihf]
          simp [hk]
        have hh := updateMario_hammer_held (ins k) (hammerTrace ins w0 k) hflag
        constructor
        · show (DK.updateMario (ins k) (hammerTrace ins w0 k)).marioHasHammer = _
          rw [hh.1, iht, decide_eq_decide]
          omega
        · show (DK.updateMario (ins k) (hammerTrace ins w0 k)).hammerTimer = _
          rw [hh.2, iht]
          omega
      · have hflag : (hammerTrace ins w0 k).marioHasHammer = false := by
          rw [ihf]
          simp [hk]
        have hh := updateMario_hammer_free (ins k) (hammerTrace ins w0 k) hflag (hp k)
        constructor
        · show (DK.updateMario (ins k) (hammerTrace ins w0 k)).marioHasHammer = _
          rw [hh.1]
          have : ¬(k + 1 < 300) := by omega
          simp [this]
        · show (DK.updateMario (ins k) (hammerTrace ins w0 k)).hammerTimer = _
          rw [hh.2, iht]
          omega

/-- Witness for C3: from a rivet-level world holding a fresh power-up (no
pickup can ever fire on the rivet level), the flag is still true at tick
299 and false with a zero countdown at tick 300. -/
theorem c3_powerup_duration_witness :
    (hammerTrace (fun _ => DK.input0) c3w 299).marioHasHammer = true ∧
    (hammerTrace (fun _ => DK.input0) c3w 300).marioHasHammer = false ∧
    (hammerTrace (fun _ => DK.input0) c3w 300).hammerTimer = 0 := by
  have hlvl := hammerTrace_level (fun _ => DK.input0) c3w
  have h := c3_powerup_duration (fun _ => DK.input0) c3w
    (by with_unfolding_all decide) (by with_unfolding_all decide)
    (fun k hpf => by
      have hR : c3w.currentLevel = DK.LevelType.RIVET := by with_unfolding_all decide
      have hg : (hammerTrace (fun _ => DK.input0) c3w k).currentLevel =
          DK.LevelType.GIRDERS := hpf.1
      exact DK.LevelType.noConfusion (((hlvl k).trans hR).symm.trans hg))
  refine ⟨?_, ?_, ?_⟩
  · simpa using (h 299).1
  · simpa using (h 300).1
  · simpa using (h 300).2

/-! Helper lemmas: the reduced variant's Mario update never touches the
hammer fields outside the countdown and pickup blocks. -/

theorem aPlatStep_hammer (m : Atari.AMario) (p : DK.Rect) :
    (Atari.aPlatStep m p).hasHammer = m.hasHammer ∧
    (Atari.aPlatStep m p).hammerTimer = m.hammerTimer := by
  unfold Atari.aPlatStep
  split_ifs <;> exact ⟨rfl, rfl⟩

theorem foldl_aPlatStep_hammer :
    ∀ (l : List DK.Rect) (m : Atari.AMario),
      (l.foldl Atari.aPlatStep m).hasHammer = m.hasHammer ∧
      (l.foldl Atari.aPlatStep m).hammerTimer = m.hammerTimer := by
  intro l
  induction l with
  | nil => intro m; exact ⟨rfl, rfl⟩
  | cons p l ih =>
      intro m
      have hp := aPlatStep_hammer m p
      simp only [List.foldl_cons]
      exact ⟨(ih _).1.trans hp.1, (ih _).2.trans hp.2⟩

theorem aMarioHoriz_hammer (i : DK.Input) (m : Atari.AMario) :
    (Atari.aMarioHoriz i m).hasHammer = m.hasHammer ∧
    (Atari.aMarioHoriz i m).hammerTimer = m.hammerTimer := by
  unfold Atari.aMarioHoriz
  split_ifs <;> exact ⟨rfl, rfl⟩

theorem aMarioClimb_hammer (i : DK.Input) (m : Atari.AMario) :
    (Atari.aMarioClimb i m).hasHammer = m.hasHammer ∧
    (Atari.aMarioClimb i m).hammerTimer = m.hammerTimer := by
  unfold Atari.aMarioClimb
  split_ifs <;> exact ⟨rfl, rfl⟩

theorem aMarioJump_hammer (i : DK.Input) (m : Atari.AMario) :
    (Atari.aMarioJump i m).hasHammer = m.hasHammer ∧
    (Atari.aMarioJump i m).hammerTimer = m.hammerTimer := by
  unfold Atari.aMarioJump
  split_ifs <;> exact ⟨rfl, rfl⟩

theorem aMarioGravity_hammer (y : ℚ) (m : Atari.AMario) :
    (Atari.aMarioGravity y m).hasHammer = m.hasHammer ∧
    (Atari.aMarioGravity y m).hammerTimer = m.hammerTimer := by
  simp only [Atari.aMarioGravity]
  split_ifs <;> exact ⟨rfl, rfl⟩

theorem aMarioPhysics_hammer (i : DK.Input) (y : ℚ) (m : Atari.AMario) :
    (Atari.aMarioPhysics i y m).hasHammer = m.hasHammer ∧
    (Atari.aMarioPhysics i y m).hammerTimer = m.hammerTimer := by
  unfold Atari.aMarioPhysics
  constructor
  · rw [(foldl_aPlatStep_hammer _ _).1]
    show (Atari.aMarioGravity y (Atari.aMarioJump i
      (Atari.aMarioClimb i (Atari.aMarioHoriz i m)))).hasHammer = m.hasHammer
    rw [(aMarioGravity_hammer _ _).1, (aMarioJump_hammer _ _).1,
       (aMarioClimb_hammer _ _).1, (aMarioHoriz_hammer _ _).1]
  · rw [(foldl_aPlatStep_hammer _ _).2]
    show (Atari.aMarioGravity y (Atari.aMarioJump i
      (Atari.aMarioClimb i (Atari.aMarioHoriz i m)))).hammerTimer = m.hammerTimer
    rw [(aMarioGravity_hammer _ _).2, (aMarioJump_hammer _ _).2,
       (aMarioClimb_hammer _ _).2, (aMarioHoriz_hammer _ _).2]

theorem aHammerCountdown_flag (m : Atari.AMario) :
    (Atari.aHammerCountdown m).hasHammer = true → m.hasHammer = true := by
  unfold Atari.aHammerCountdown
  split_ifs <;> simp_all

theorem aMario_noGrant (i : DK.Input) (y : ℚ) (m : Atari.AMario) :
    (Atari.aHammerCountdown (Atari.aMarioPhysics i y m)).hasHammer = true →
    m.hasHammer = true := by
  intro h
  have h2 := aHammerCountdown_flag _ h
  rw [(aMarioPhysics_hammer i y m).1] at h2
  exact h2

theorem loseLifeA_lives (w : Atari.AWorld) :
    (Atari.loseLifeA w).lives = w.lives - 1 := by
  simp only [Atari.loseLifeA]
  split_ifs <;> rfl

attribute [ext] DK.World

theorem hammerTrace_const_add (i0 : DK.Input) (w0 : DK.World) (a : ℕ) :
    ∀ b, hammerTrace (fun _ => i0) w0 (a + b) =
      hammerTrace (fun _ => i0) (hammerTrace (fun _ => i0) w0 a) b := by
  intro b
  induction b with
  | zero => rfl
  | succ b ih =>
      show DK.updateMario i0 (hammerTrace (fun _ => i0) w0 (a + b)) = _
      rw [ih]
      rfl

/-- C9 counterexample: the full variant has no consumed state on hammer
spots, so the claim that a consumed hammer is never picked up again within
a level attempt fails.  With Mario resting on the first hammer spot: tick 1
picks the hammer up (flag set, timer 300); the power-up expires during
tick 301; and tick 302 — with no level re-initialization anywhere in the
trace — picks the very same hammer up a second time. -/
theorem c9_hammer_counterexample :
    c9w0.marioHasHammer = false ∧
    (c9trace 1).marioHasHammer = true ∧ (c9trace 1).hammerTimer = 300 ∧
    (c9trace 301).marioHasHammer = false ∧ (c9trace 301).hammerTimer = 0 ∧
    (c9trace 302).marioHasHammer = true ∧ (c9trace 302).hammerTimer = 300 := by
  have h100 : hammerTrace (fun _ => DK.input0) c9w0 100 = c9W true 201 := by
    ext1 <;> with_unfolding_all decide
  have h200 : hammerTrace (fun _ => DK.input0) c9w0 200 = c9W true 101 := by
    rw [show (200 : ℕ) = 100 + 100 by norm_num,
       hammerTrace_const_add DK.input0 c9w0 100, h100]
    ext1 <;> with_unfolding_all decide
  have h300 : hammerTrace (fun _ => DK.input0) c9w0 300 = c9W true 1 := by
    rw [show (300 : ℕ) = 200 + 100 by norm_num,
       hammerTrace_const_add DK.input0 c9w0 200, h200]
    ext1 <;> with_unfolding_all decide
  have h301 : hammerTrace (fun _ => DK.input0) c9w0 301 = c9W false 0 := by
    rw [show (301 : ℕ) = 300 + 1 by norm_num,
       hammerTrace_const_add DK.input0 c9w0 300, h300]
    ext1 <;> with_unfolding_all decide
  have h302 : hammerTrace (fun _ => DK.input0) c9w0 302 = c9W true 300 := by
    rw [show (302 : ℕ) = 301 + 1 by norm_num,
       hammerTrace_const_add DK.input0 c9w0 301, h301]
    ext1 <;> with_unfolding_all decide
  refine ⟨by with_unfolding_all decide, by with_unfolding_all decide,
          by with_unfolding_all decide, ?_, ?_, ?_, ?_⟩
  · show (hammerTrace (fun _ => DK.input0) c9w0 301).marioHasHammer = false
    rw [h301]
    rfl
  · show (hammerTrace (fun _ => DK.input0) c9w0 301).hammerTimer = 0
    rw [h301]
    rfl
  · show (hammerTrace (fun _ => DK.input0) c9w0 302).marioHasHammer = true
    rw [h302]
    rfl
  · show (hammerTrace (fun _ => DK.input0) c9w0 302).hammerTimer = 300
    rw [h302]
    rfl

/-- C9 (amended): in the reduced variant a consumed (or absent) hammer
spot stays consumed across Mario updates, such a tick never turns Mario's
power-up flag on, the hazard updates never touch the spot, and the
collision pass replaces it only by ending the attempt through a life loss;
in the full variant hammers carry no consumed state and a pickup is
blocked only while the power-up is held (after expiry the same spot can be
re-acquired, as the counterexample shows). -/
theorem c9_hammer_amended :
    (∀ (i : DK.Input) (w : Atari.AWorld), aHammerGone w →
      aHammerGone (Atari.updateMarioA i w) ∧
      (Atari.updateMarioA i w).hammer = w.hammer ∧
      ((Atari.updateMarioA i w).mario.hasHammer = true →
        w.mario.hasHammer = true)) ∧
    (∀ (rspawn : Bool) (rlad : ℕ → Bool) (w : Atari.AWorld),
      (Atari.updateBarrelsA rspawn rlad w).hammer = w.hammer) ∧
    (∀ (rspawn rdir : Bool) (rclimb rupdown rstop : ℕ → Bool) (w : Atari.AWorld),
      (Atari.updateFireballsA rspawn rdir rclimb rupdown rstop w).hammer = w.hammer) ∧
    (∀ (m : Atari.AMario) (w : Atari.AWorld) (b : Atari.ABarrel),
      (Atari.collideBarrelA m w b).hammer = w.hammer ∨
      (Atari.collideBarrelA m w b).lives = w.lives - 1) ∧
    (∀ (m : Atari.AMario) (w : Atari.AWorld) (f : Atari.AFireball),
      (Atari.collideFireballA m w f).hammer = w.hammer ∨
      (Atari.collideFireballA m w f).lives = w.lives - 1) ∧
    (∀ (i : DK.Input) (w : DK.World), w.marioHasHammer = true →
      ¬ DK.hammerPickupFires i w) := by
  refine ⟨?_, ?_, ?_, ?_, ?_, ?_⟩
  · intro i w hg
    unfold Atari.updateMarioA
    split_ifs with hps
    · exact ⟨hg, rfl, fun h => h⟩
    · cases hw : w.hammer with
      | none =>
          refine ⟨?_, rfl, ?_⟩
          · intro h' hh'
            dsimp only at hh'
            exact Option.noConfusion hh'
          · exact aMario_noGrant i w.mario.y w.mario
      | some h =>
          have ha : h.active = false := hg h hw
          dsimp only
          rw [ha]
          simp only [Bool.false_and, Bool.false_eq_true, if_false]
          refine ⟨?_, by trivial, ?_⟩
          · intro h' hh'
            dsimp only at hh'
            rw [← Option.some.inj hh']
            exact ha
          · exact aMario_noGrant i w.mario.y w.mario
  · intro rspawn rlad w
    unfold Atari.updateBarrelsA
    split_ifs <;> rfl
  · intro rspawn rdir rclimb rupdown rstop w
    unfold Atari.updateFireballsA
    split_ifs <;> rfl
  · intro m w b
    unfold Atari.collideBarrelA
    split_ifs
    · exact Or.inl rfl
    · exact Or.inr (loseLifeA_lives w)
    · exact Or.inl rfl
  · intro m w f
    unfold Atari.collideFireballA
    split_ifs
    · exact Or.inl rfl
    · exact Or.inr (loseLifeA_lives w)
    · exact Or.inl rfl
  · intro i w h hpf
    have hflag : w.marioHasHammer = false := hpf.2.1
    rw [h] at hflag
    exact Bool.noConfusion hflag

/-- Witness for C9 (amended): a tick on a world with a consumed hammer
spot keeps it consumed, and a held power-up blocks the full variant's
pickup. -/
theorem c9_hammer_amended_witness :
    aHammerGone (Atari.updateMarioA DK.input0 c9aw) ∧
    (Atari.updateMarioA DK.input0 c9aw).hammer = c9aw.hammer ∧
    ¬ DK.hammerPickupFires DK.input0 { c9w0 with marioHasHammer := true } := by
  have h := c9_hammer_amended
  have hgone : aHammerGone c9aw := by
    intro h' hh'
    have hs : some c9aobj = some h' := hh'
    injection hs with h2
    rw [← h2]
    rfl
  have h1 := h.1 DK.input0 c9aw hgone
  exact ⟨h1.1, h1.2.1, h.2.2.2.2.2 DK.input0 _ rfl⟩

/-- C1 counterexample: in the full variant, fireball contact is lethal
even while the power-up is held, and the fireball is not destroyed nor
scored.  In `c1world` Mario holds the hammer and the live fireball
`c1fire` reaches him this tick, yet the tick enters the death phase,
keeps the fireball alive, and leaves the score unchanged. -/
theorem c1_power_contact_counterexample :
    c1world.marioHasHammer = true ∧
    DK.marioHits c1world.mario 24 224 8 8 = true ∧
    DK.updateFireball (DK.platformsFor c1world.currentLevel) c1world.mario c1fire =
      (some { c1fire with x := 24, y := 224, vy := -2, animTimer := 1 }, true) ∧
    (DK.updateFireballs rand0 c1world).gameState = DK.GameState.MARIO_DEATH ∧
    (DK.updateFireballs rand0 c1world).fireballs.length = 1 ∧
    (DK.updateFireballs rand0 c1world).score = c1world.score := by
  with_unfolding_all decide

/-- C1 (amended): while the avatar holds the power-up, barrel contact is
never lethal, and an on-screen barrel overlapping the avatar after its
motion is destroyed with a 300-point award, in the full variant; in the
reduced variant an overlapping active barrel is destroyed for 300 points
and an overlapping active fireball for 500 points, neither losing a life
nor changing the phase.  In the full variant, however, an on-screen
fireball overlapping the avatar triggers the death phase and survives,
power-up or not (the power-up is unobtainable on the full variant's
fireball level, so that case cannot arise in normal play). -/
theorem c1_power_contact_amended :
    (∀ (plats lads : List DK.Rect) (m : DK.Sprite) (rb : Bool) (b : DK.Barrel),
      (DK.updateBarrel true plats lads m rb b).2.2 = false) ∧
    (∀ (plats lads : List DK.Rect) (m : DK.Sprite) (rb : Bool) (b : DK.Barrel),
      DK.barrelOffscreen (DK.barrelPhysics plats lads rb b) = false →
      DK.marioHits m (DK.barrelPhysics plats lads rb b).x
        (DK.barrelPhysics plats lads rb b).y
        (DK.barrelPhysics plats lads rb b).width
        (DK.barrelPhysics plats lads rb b).height = true →
      DK.updateBarrel true plats lads m rb b = (none, 300, false)) ∧
    (∀ (plats : List DK.Rect) (m : DK.Sprite) (f : DK.Fireball),
      ¬((DK.fireballPhysics plats f).y > DK.CANVAS_HEIGHT) →
      DK.marioHits m (DK.fireballPhysics plats f).x (DK.fireballPhysics plats f).y
        (DK.fireballPhysics plats f).width (DK.fireballPhysics plats f).height = true →
      DK.updateFireball plats m f = (some (DK.fireballPhysics plats f), true)) ∧
    (∀ (m : Atari.AMario) (w : Atari.AWorld) (b : Atari.ABarrel),
      m.hasHammer = true → b.active = true →
      Atari.marioOverlapA m b.x b.y b.width b.height = true →
      (Atari.collideBarrelA m w b).score = w.score + 300 ∧
      (Atari.collideBarrelA m w b).lives = w.lives ∧
      (Atari.collideBarrelA m w b).gameState = w.gameState ∧
      (Atari.collideBarrelA m w b).barrels =
        w.barrels.map (fun c => if c = b then { c with active := false } else c)) ∧
    (∀ (m : Atari.AMario) (w : Atari.AWorld) (f : Atari.AFireball),
      m.hasHammer = true → f.active = true →
      Atari.marioOverlapA m f.x f.y f.width f.height = true →
      (Atari.collideFireballA m w f).score = w.score + 500 ∧
      (Atari.collideFireballA m w f).lives = w.lives ∧
      (Atari.collideFireballA m w f).gameState = w.gameState ∧
      (Atari.collideFireballA m w f).fireballs =
        w.fireballs.map (fun g => if g = f then { g with active := false } else g)) := by
  refine ⟨?_, ?_, ?_, ?_, ?_⟩
  · intro plats lads m rb b
    simp only [DK.updateBarrel]
    split_ifs <;> simp_all
  · intro plats lads m rb b hoff hhit
    simp only [DK.updateBarrel, hoff, hhit]
    simp
  · intro plats m f hoff hhit
    simp only [DK.updateFireball, hhit]
    rw [if_neg hoff]
  · intro m w b hm hb hov
    unfold Atari.collideBarrelA
    rw [hm, hb, hov]
    simp only [Bool.true_and, Bool.and_self, if_true]
    exact ⟨by trivial, by trivial, by trivial, by trivial⟩
  · intro m w f hm hf hov
    unfold Atari.collideFireballA
    rw [hm, hf, hov]
    simp only [Bool.true_and, Bool.and_self, if_true]
    exact ⟨by trivial, by trivial, by trivial, by trivial⟩

/-- Witness for C1 (amended): a concrete power-up barrel kill in each
variant, a 500-point fireball kill in the reduced variant, and the
unconditional lethality of full-variant fireball contact. -/
theorem c1_power_contact_amended_witness :
    DK.updateBarrel true DK.girderPlatforms DK.girderLadders c9w0.mario false
      c1barrel = (none, 300, false) ∧
    (Atari.collideBarrelA { Atari.aMarioStart with hasHammer := true } aw0
      c1abarrel).score = aw0.score + 300 ∧
    (Atari.collideFireballA { Atari.aMarioStart with hasHammer := true } aw0
      c1afire).score = aw0.score + 500 ∧
    DK.updateFireball DK.rivetPlatforms c1world.mario c1fire =
      (some (DK.fireballPhysics DK.rivetPlatforms c1fire), true) := by
  have h := c1_power_contact_amended
  refine ⟨?_, ?_, ?_, ?_⟩
  · exact h.2.1 DK.girderPlatforms DK.girderLadders c9w0.mario false c1barrel
      (by with_unfolding_all decide) (by with_unfolding_all decide)
  · exact (h.2.2.2.1 { Atari.aMarioStart with hasHammer := true } aw0 c1abarrel
      (by with_unfolding_all decide) (by with_unfolding_all decide)
      (by with_unfolding_all decide)).1
  · exact (h.2.2.2.2 { Atari.aMarioStart with hasHammer := true } aw0 c1afire
      (by with_unfolding_all decide) (by with_unfolding_all decide)
      (by with_unfolding_all decide)).1
  · exact h.2.2.1 DK.rivetPlatforms c1world.mario c1fire
      (by with_unfolding_all decide) (by with_unfolding_all decide)
